import Mathlib

/-!
# CLWPlatform: platform discovery and lazy device enumeration

A shallow embedding of `CLW/CLWPlatform.cpp`.

The OpenCL runtime is a foreign interface.  It is represented by a value `Native` that
answers every call from a time-indexed schedule of snapshots and records every call issued
together with the status it returned.  A C++ function that can throw returns an `Outcome`;
a function that mutates an object returns the object's new value next to the outcome.

Counts and indices (`cl_uint`, `size_t`, `unsigned int`, `int`) are lengths of and positions in
in-memory handle arrays and are represented in `Nat`: the conversions between these types in
the source are the identity on every count below `2^31`.  Handles are opaque numbers, `0` being
the null handle.  A `std::string` and a `std::vector<char>` are lists of characters.

The expression `&v[0]` on a vector `v` hands the runtime a buffer of `v.size()` entries; on an
empty vector it is a buffer of capacity 0, which the runtime never writes to.  Reading
`devices_[idx]` at or past `devices_.size()` has no defined result and is the outcome
`Outcome.undefined`.
-/

/-! ## OpenCL types and constants -/

abbrev cl_int := Int
abbrev cl_uint := Nat
abbrev cl_platform_id := Nat
abbrev cl_device_id := Nat
abbrev cl_device_type := Nat

def CL_SUCCESS : cl_int := 0
def CL_INVALID_VALUE : cl_int := -30
def CL_DEVICE_TYPE_GPU : cl_device_type := 4
def CL_DEVICE_TYPE_ALL : cl_device_type := 0xFFFFFFFF

/-- The keys of `clGetPlatformInfo`. -/
inductive cl_platform_info
  | CL_PLATFORM_PROFILE
  | CL_PLATFORM_VERSION
  | CL_PLATFORM_NAME
  | CL_PLATFORM_VENDOR
  | CL_PLATFORM_EXTENSIONS
  deriving DecidableEq, Repr

open cl_platform_info

/-- The terminator of a C string. -/
def NUL : Char := Char.ofNat 0

/-! ## The native interface -/

/-- The native calls the file makes, by shape of their argument list. -/
inductive NativeCall
  /-- Call `clGetPlatformIDs(0, nullptr, &num_platforms)` -/
  | platformCount
  /-- Call `clGetPlatformIDs(num_entries, platforms, nullptr)` -/
  | platformFetch (num_entries : cl_uint)
  /-- Call `clGetPlatformInfo(id, param, 0, nullptr, &size)` -/
  | infoSize (id : cl_platform_id) (param : cl_platform_info)
  /-- Call `clGetPlatformInfo(id, param, size, buffer, nullptr)` -/
  | infoFetch (id : cl_platform_id) (param : cl_platform_info) (size : Nat)
  /-- Call `clGetDeviceIDs(platform, type, 0, nullptr, &num_devices)` -/
  | deviceCount (id : cl_platform_id) (type : cl_device_type)
  /-- Call `clGetDeviceIDs(platform, type, num_entries, devices, nullptr)` -/
  | deviceFetch (id : cl_platform_id) (type : cl_device_type) (num_entries : cl_uint)
  deriving DecidableEq, Repr

/-- One snapshot of the native runtime: the status it answers each call with, and the data it
holds.  `info id param` is the property string without its terminator. -/
structure NativeState where
  status : NativeCall → cl_int
  platforms : List cl_platform_id
  info : cl_platform_id → cl_platform_info → List Char
  devices : cl_platform_id → cl_device_type → List cl_device_id

/-- A call that was issued, with the status it returned. -/
structure NativeEvent where
  call : NativeCall
  status : cl_int
  deriving DecidableEq, Repr

/-- The native runtime as the program meets it: the `clock`-th call is answered by snapshot
`state clock`; `trace` lists the calls issued so far, oldest first. -/
structure Native where
  clock : Nat
  trace : List NativeEvent
  state : Nat → NativeState

/-- The snapshot that answers the next call. -/
def Native.now (w : Native) : NativeState := w.state w.clock

/-- Record a call and move to the next snapshot. -/
def Native.issue (w : Native) (c : NativeCall) (status : cl_int) : Native :=
  { w with clock := w.clock + 1, trace := w.trace ++ [⟨c, status⟩] }

/-- What a native call leaves behind: its status, the value of its output argument after the
call, and the runtime after the call. -/
structure Reply (α : Type) where
  status : cl_int
  value : α
  native : Native

/-- Native call `clGetPlatformIDs(0, nullptr, &num_platforms)`: on success the number of
platforms is written; on failure `num_platforms` keeps its value. -/
def clGetPlatformIDs_count (w : Native) (num_platforms : cl_uint) : Reply cl_uint :=
  let c := NativeCall.platformCount
  let st := w.now.status c
  ⟨st, if st = CL_SUCCESS then w.now.platforms.length else num_platforms, w.issue c st⟩

/-- Native call `clGetPlatformIDs(num_entries, platforms, nullptr)`: on success the first
`min num_entries available` entries of the array are overwritten. -/
def clGetPlatformIDs_fetch (w : Native) (num_entries : cl_uint) (platforms : List cl_platform_id) :
    Reply (List cl_platform_id) :=
  let c := NativeCall.platformFetch num_entries
  let st := w.now.status c
  let avail := w.now.platforms.take num_entries
  ⟨st, if st = CL_SUCCESS then avail ++ platforms.drop avail.length else platforms, w.issue c st⟩

/-- Native call `clGetPlatformInfo(id, param, 0, nullptr, &size)`: on success the size in bytes
of the property, terminator included, is written; on failure `size` keeps its value. -/
def clGetPlatformInfo_size (w : Native) (id : cl_platform_id) (param : cl_platform_info)
    (size : Nat) : Reply Nat :=
  let c := NativeCall.infoSize id param
  let st := w.now.status c
  ⟨st, if st = CL_SUCCESS then (w.now.info id param).length + 1 else size, w.issue c st⟩

/-- Native call `clGetPlatformInfo(id, param, size, buffer, nullptr)`: a buffer smaller than
the property is answered with `CL_INVALID_VALUE`; on success the property and its terminator
are written to the front of the buffer; on failure the buffer keeps its content. -/
def clGetPlatformInfo_fetch (w : Native) (id : cl_platform_id) (param : cl_platform_info)
    (size : Nat) (buffer : List Char) : Reply (List Char) :=
  let c := NativeCall.infoFetch id param size
  let value := w.now.info id param ++ [NUL]
  let st := if w.now.status c ≠ CL_SUCCESS then w.now.status c
            else if size < value.length then CL_INVALID_VALUE else CL_SUCCESS
  ⟨st, if st = CL_SUCCESS then value ++ buffer.drop value.length else buffer, w.issue c st⟩

/-- Native call `clGetDeviceIDs(platform, type, 0, nullptr, &num_devices)`: on success the
number of devices of the platform for `type` is written. -/
def clGetDeviceIDs_count (w : Native) (id : cl_platform_id) (type : cl_device_type)
    (num_devices : cl_uint) : Reply cl_uint :=
  let c := NativeCall.deviceCount id type
  let st := w.now.status c
  ⟨st, if st = CL_SUCCESS then (w.now.devices id type).length else num_devices, w.issue c st⟩

/-- Native call `clGetDeviceIDs(platform, type, num_entries, devices, nullptr)`: on success the
first `min num_entries available` entries of the array are overwritten. -/
def clGetDeviceIDs_fetch (w : Native) (id : cl_platform_id) (type : cl_device_type)
    (num_entries : cl_uint) (devices : List cl_device_id) : Reply (List cl_device_id) :=
  let c := NativeCall.deviceFetch id type num_entries
  let st := w.now.status c
  let avail := (w.now.devices id type).take num_entries
  ⟨st, if st = CL_SUCCESS then avail ++ devices.drop avail.length else devices, w.issue c st⟩

/-! ## Errors and outcomes -/

/-- Modelled from the spec: `CLWExcept` (declared in `CLWExcept.h`), the typed error carrying the
native status code and a message naming the failing call.  `ThrowIf(condition, errcode, message)`
throws `CLWExcept(errcode, message)` when `condition` holds and does nothing otherwise. -/
structure CLWExcept where
  errcode : cl_int
  message : String
  deriving DecidableEq, Repr

/-- How a C++ call ends: it returns a value, it throws a `CLWExcept` (through `ThrowIf`), or its
behaviour is undefined (an access past the end of a `std::vector`). -/
inductive Outcome (α : Type)
  | returned (value : α)
  | thrown (e : CLWExcept)
  | undefined
  deriving DecidableEq, Repr

/-- A call on no object: outcome and the runtime afterwards. -/
structure Ret (α : Type) where
  outcome : Outcome α
  native : Native

/-- A call on an object of type `σ`: outcome, the runtime and the object afterwards. -/
structure RetS (σ α : Type) where
  outcome : Outcome α
  native : Native
  state : σ

/-! ## Strings -/

/-- The `std::string` built from a `const char*`: the characters before the first terminator. -/
def cstr (buffer : List Char) : List Char := buffer.takeWhile (fun c => c ≠ NUL)

/-- Search of `std::string::find` from position `pos` on: the first position at which `pat`
starts. -/
def findFrom (pat : List Char) : List Char → Nat → Option Nat
  | [], pos => if pat = [] then some pos else none
  | c :: cs, pos => if pat.isPrefixOf (c :: cs) then some pos else findFrom pat cs (pos + 1)

/-- Function `std::string::find(pat)`; `none` stands for `std::string::npos`. -/
def find (s pat : List Char) : Option Nat := findFrom pat s 0

/-! ## CLWDevice and CLWPlatform -/

/-- Modelled from the spec: `CLWDevice` (declared in `CLWDevice.h`), a value wrapping one native
device handle. -/
structure CLWDevice where
  id : cl_device_id
  deriving DecidableEq, Repr

/-- The members of `CLWPlatform`: the handle held by the `ReferenceCounter` base, the device
type, the five strings and the mutable device cache. -/
structure CLWPlatform where
  id : cl_platform_id
  type_ : cl_device_type
  name_ : List Char
  profile_ : List Char
  vendor_ : List Char
  version_ : List Char
  extensions_ : List Char
  devices_ : List CLWDevice
  deriving DecidableEq, Repr

/-- Function `CLWPlatform::GetPlatformInfoParameter`: size probe, fetch, and the C string read
from the buffer.  The returned value is the new content of `result`. -/
def CLWPlatform.GetPlatformInfoParameter (w : Native) (id : cl_platform_id)
    (param : cl_platform_info) : Ret (List Char) :=
  let r1 := clGetPlatformInfo_size w id param 0
  if r1.status ≠ CL_SUCCESS then ⟨.thrown ⟨r1.status, "clGetPlatformInfo failed"⟩, r1.native⟩ else
  let length := r1.value
  let r2 := clGetPlatformInfo_fetch r1.native id param length (List.replicate length NUL)
  if r2.status ≠ CL_SUCCESS then ⟨.thrown ⟨r2.status, "clGetPlatformInfo failed"⟩, r2.native⟩ else
  ⟨.returned (cstr r2.value), r2.native⟩

/-- The constructor `CLWPlatform::CLWPlatform(id, type)`: the four strings are fetched in the
order name, profile, vendor, version; `extensions_` and `devices_` stay default-constructed. -/
def CLWPlatform.construct (w : Native) (id : cl_platform_id) (type : cl_device_type) :
    Ret CLWPlatform :=
  let this : CLWPlatform :=
    { id := id, type_ := type, name_ := [], profile_ := [], vendor_ := [], version_ := [],
      extensions_ := [], devices_ := [] }
  let r1 := CLWPlatform.GetPlatformInfoParameter w this.id CL_PLATFORM_NAME
  match r1.outcome with
  | .thrown e => ⟨.thrown e, r1.native⟩
  | .undefined => ⟨.undefined, r1.native⟩
  | .returned name =>
  let this := { this with name_ := name }
  let r2 := CLWPlatform.GetPlatformInfoParameter r1.native this.id CL_PLATFORM_PROFILE
  match r2.outcome with
  | .thrown e => ⟨.thrown e, r2.native⟩
  | .undefined => ⟨.undefined, r2.native⟩
  | .returned profile =>
  let this := { this with profile_ := profile }
  let r3 := CLWPlatform.GetPlatformInfoParameter r2.native this.id CL_PLATFORM_VENDOR
  match r3.outcome with
  | .thrown e => ⟨.thrown e, r3.native⟩
  | .undefined => ⟨.undefined, r3.native⟩
  | .returned vendor =>
  let this := { this with vendor_ := vendor }
  let r4 := CLWPlatform.GetPlatformInfoParameter r3.native this.id CL_PLATFORM_VERSION
  match r4.outcome with
  | .thrown e => ⟨.thrown e, r4.native⟩
  | .undefined => ⟨.undefined, r4.native⟩
  | .returned version =>
  ⟨.returned { this with version_ := version }, r4.native⟩

/-- Function `CLWPlatform::Create`. -/
def CLWPlatform.Create (w : Native) (id : cl_platform_id) (type : cl_device_type) :
    Ret CLWPlatform :=
  CLWPlatform.construct w id type

/-- The version loop of `CreateAllPlatforms` over the remaining `platformIds`: two
`clGetPlatformInfo` calls whose status is stored and not tested, then the substring test. -/
def CLWPlatform.versionLoop (w : Native) :
    List cl_platform_id → List cl_platform_id → List cl_platform_id × Native
  | [], validIds => (validIds, w)
  | id :: rest, validIds =>
    let r1 := clGetPlatformInfo_size w id CL_PLATFORM_VERSION 0
    let size := r1.value
    let r2 := clGetPlatformInfo_fetch r1.native id CL_PLATFORM_VERSION size
      (List.replicate size NUL)
    let versionstr := r2.value
    if find versionstr ['1', '.', '0'] ≠ none ∨ find versionstr ['1', '.', '1'] ≠ none then
      CLWPlatform.versionLoop r2.native rest validIds
    else
      CLWPlatform.versionLoop r2.native rest (validIds ++ [id])

/-- The `std::transform` of `CreateAllPlatforms`: each valid id is turned into a platform by
`Create` and appended to `platforms`; an exception leaves what was appended so far. -/
def CLWPlatform.transformCreate (type : cl_device_type) (w : Native) :
    List cl_platform_id → List CLWPlatform → RetS (List CLWPlatform) Unit
  | [], platforms => ⟨.returned (), w, platforms⟩
  | id :: rest, platforms =>
    let r := CLWPlatform.Create w id type
    match r.outcome with
    | .thrown e => ⟨.thrown e, r.native, platforms⟩
    | .undefined => ⟨.undefined, r.native, platforms⟩
    | .returned p => CLWPlatform.transformCreate type r.native rest (platforms ++ [p])

/-- Function `CLWPlatform::CreateAllPlatforms(platforms)`; `apple` tells whether `__APPLE__` is
defined.  The object acted on is the caller's vector `platforms`.  The variable `numPlatforms`
has no initial value; it is read only after the count query succeeded. -/
def CLWPlatform.CreateAllPlatforms (apple : Bool) (w : Native) (platforms : List CLWPlatform) :
    RetS (List CLWPlatform) Unit :=
  let r1 := clGetPlatformIDs_count w 0
  if r1.status ≠ CL_SUCCESS then
    ⟨.thrown ⟨r1.status, "clGetPlatformIDs failed"⟩, r1.native, platforms⟩ else
  let numPlatforms := r1.value
  let r2 := clGetPlatformIDs_fetch r1.native numPlatforms (List.replicate numPlatforms 0)
  if r2.status ≠ CL_SUCCESS then
    ⟨.thrown ⟨r2.status, "clGetPlatformIDs failed"⟩, r2.native, platforms⟩ else
  let platformIds := r2.value
  let type := if apple then CL_DEVICE_TYPE_GPU else CL_DEVICE_TYPE_ALL
  let platforms : List CLWPlatform := []
  let loop := CLWPlatform.versionLoop r2.native platformIds []
  CLWPlatform.transformCreate type loop.2 loop.1 platforms

/-- Function `CLWPlatform::GetName`. -/
def CLWPlatform.GetName (this : CLWPlatform) : List Char := this.name_

/-- Function `CLWPlatform::GetProfile`. -/
def CLWPlatform.GetProfile (this : CLWPlatform) : List Char := this.profile_

/-- Function `CLWPlatform::GetVersion`. -/
def CLWPlatform.GetVersion (this : CLWPlatform) : List Char := this.version_

/-- Function `CLWPlatform::GetVendor`. -/
def CLWPlatform.GetVendor (this : CLWPlatform) : List Char := this.vendor_

/-- Function `CLWPlatform::GetExtensions`. -/
def CLWPlatform.GetExtensions (this : CLWPlatform) : List Char := this.extensions_

/-- Function `CLWPlatform::InitDeviceList(type)`: count query, fetch, then one `push_back` per
index below `numDevices`. -/
def CLWPlatform.InitDeviceList (w : Native) (this : CLWPlatform) (type : cl_device_type) :
    RetS CLWPlatform Unit :=
  let r1 := clGetDeviceIDs_count w this.id type 0
  if r1.status ≠ CL_SUCCESS then
    ⟨.thrown ⟨r1.status, "clGetDeviceIDs failed"⟩, r1.native, this⟩ else
  let numDevices := r1.value
  let r2 := clGetDeviceIDs_fetch r1.native this.id type numDevices (List.replicate numDevices 0)
  if r2.status ≠ CL_SUCCESS then
    ⟨.thrown ⟨r2.status, "clGetDeviceIDs failed"⟩, r2.native, this⟩ else
  let deviceIds := r2.value
  ⟨.returned (), r2.native,
    { this with devices_ := this.devices_ ++
        (List.range numDevices).map (fun i => CLWDevice.mk (deviceIds.getD i 0)) }⟩

/-- Function `CLWPlatform::GetDeviceCount`. -/
def CLWPlatform.GetDeviceCount (w : Native) (this : CLWPlatform) : RetS CLWPlatform cl_uint :=
  if this.devices_.length = 0 then
    let r := CLWPlatform.InitDeviceList w this this.type_
    match r.outcome with
    | .thrown e => ⟨.thrown e, r.native, r.state⟩
    | .undefined => ⟨.undefined, r.native, r.state⟩
    | .returned _ => ⟨.returned r.state.devices_.length, r.native, r.state⟩
  else
    ⟨.returned this.devices_.length, w, this⟩

/-- The unchecked `devices_[idx]`: defined only below the size of the vector. -/
def CLWPlatform.deviceAt (this : CLWPlatform) (idx : Nat) : Outcome CLWDevice :=
  match this.devices_.get? idx with
  | some d => .returned d
  | none => .undefined

/-- Function `CLWPlatform::GetDevice(idx)`. -/
def CLWPlatform.GetDevice (w : Native) (this : CLWPlatform) (idx : Nat) :
    RetS CLWPlatform CLWDevice :=
  if this.devices_.length = 0 then
    let r := CLWPlatform.InitDeviceList w this this.type_
    match r.outcome with
    | .thrown e => ⟨.thrown e, r.native, r.state⟩
    | .undefined => ⟨.undefined, r.native, r.state⟩
    | .returned _ => ⟨r.state.deviceAt idx, r.native, r.state⟩
  else
    ⟨this.deviceAt idx, w, this⟩

/-! ## Concrete native runtimes used in the examples -/

/-- A snapshot in which every call succeeds. -/
def mkState (platforms : List cl_platform_id) (version : cl_platform_id → List Char)
    (devices : List cl_device_id) : NativeState where
  status := fun _ => CL_SUCCESS
  platforms := platforms
  info := fun id param =>
    match param with
    | CL_PLATFORM_PROFILE => "FULL_PROFILE".toList
    | CL_PLATFORM_VERSION => version id
    | CL_PLATFORM_NAME => "Platform".toList
    | CL_PLATFORM_VENDOR => "Vendor".toList
    | CL_PLATFORM_EXTENSIONS => "cl_khr_icd".toList
  devices := fun _ _ => devices

/-- A runtime that never changes: every call is answered by `s`. -/
def steady (s : NativeState) : Native := ⟨0, [], fun _ => s⟩

/-- Two platforms, `1` with version "OpenCL 1.1" and `2` with version "OpenCL 1.2 Mesa". -/
def mesaState : NativeState :=
  mkState [1, 2] (fun id => if id = 1 then "OpenCL 1.1".toList else "OpenCL 1.2 Mesa".toList) [7]

/-! ## Specification-side definitions and further example runtimes -/

/-- The platform built from snapshot `s` for handle `id`: what the constructor yields when the
runtime is steady at `s` and every call succeeds. -/
def platformOf (s : NativeState) (id : cl_platform_id) (type : cl_device_type) : CLWPlatform :=
  { id := id, type_ := type,
    name_ := cstr (s.info id CL_PLATFORM_NAME ++ [NUL]),
    profile_ := cstr (s.info id CL_PLATFORM_PROFILE ++ [NUL]),
    vendor_ := cstr (s.info id CL_PLATFORM_VENDOR ++ [NUL]),
    version_ := cstr (s.info id CL_PLATFORM_VERSION ++ [NUL]),
    extensions_ := [], devices_ := [] }

/-- Whether the version loop keeps a platform whose version string is `v`. -/
def keepsVersion (v : List Char) : Bool :=
  decide (¬ (['1', '.', '0'] <:+: v ∨ ['1', '.', '1'] <:+: v))

/-- One platform, handle `1`, of version 1.2 whose vendor text holds a driver version. -/
def cudaState : NativeState :=
  mkState [1] (fun _ => "OpenCL 1.2 CUDA 10.1.120".toList) [7]

/-- A snapshot like `s` in which call `c` is answered with `st`. -/
def failing (s : NativeState) (c : NativeCall) (st : cl_int) : NativeState :=
  { s with status := fun c' => if c' = c then st else s.status c' }

/-- One platform, handle `1`, version "OpenCL 1.2", one device. -/
def plainState : NativeState := mkState [1] (fun _ => "OpenCL 1.2".toList) [7]

/-- A runtime with one platform in which the size probe of the version loop, the third native
call, is answered with `CL_OUT_OF_HOST_MEMORY` (-6), and every other call succeeds. -/
def probeFailsOnce : Native :=
  ⟨0, [], fun t =>
    if t = 2 then failing plainState (.infoSize 1 CL_PLATFORM_VERSION) (-6) else plainState⟩

/-- The handle array after a successful fetch of at most `n` entries from the native list `ds`:
the native handles in order, then the entries the runtime did not write, still null. -/
def fetchedIds (n : Nat) (ds : List cl_device_id) : List cl_device_id :=
  ds.take n ++ List.replicate (n - ds.length) 0

/-- The eight native calls of a construction, in the order they are issued: size probe then
fetch, for name, profile, vendor and version. -/
def constructCalls (w : Native) (id : cl_platform_id) : List NativeCall :=
  [.infoSize id CL_PLATFORM_NAME,
   .infoFetch id CL_PLATFORM_NAME (((w.state w.clock).info id CL_PLATFORM_NAME).length + 1),
   .infoSize id CL_PLATFORM_PROFILE,
   .infoFetch id CL_PLATFORM_PROFILE
     (((w.state (w.clock + 2)).info id CL_PLATFORM_PROFILE).length + 1),
   .infoSize id CL_PLATFORM_VENDOR,
   .infoFetch id CL_PLATFORM_VENDOR
     (((w.state (w.clock + 4)).info id CL_PLATFORM_VENDOR).length + 1),
   .infoSize id CL_PLATFORM_VERSION,
   .infoFetch id CL_PLATFORM_VERSION
     (((w.state (w.clock + 6)).info id CL_PLATFORM_VERSION).length + 1)]

/-- Calling `GetDeviceCount` twice in a row: the second call runs on the runtime and the
platform the first call left. -/
def CLWPlatform.GetDeviceCountTwice (w : Native) (this : CLWPlatform) :
    RetS CLWPlatform cl_uint :=
  CLWPlatform.GetDeviceCount (CLWPlatform.GetDeviceCount w this).native
    (CLWPlatform.GetDeviceCount w this).state

/-- One platform, handle `1`, with no device; every call succeeds. -/
def emptyState : NativeState := mkState [1] (fun _ => "OpenCL 1.2".toList) []

/-- A runtime with one platform and one device whose first call is answered with
`CL_OUT_OF_RESOURCES` (-5) when it is the device count query. -/
def countFailsOnce : Native :=
  ⟨0, [], fun t =>
    if t = 0 then failing plainState (.deviceCount 1 CL_DEVICE_TYPE_ALL) (-5) else plainState⟩

/-- One platform, handle `1`, with the two devices `7` and `9`, in that order. -/
def twoDeviceState : NativeState := mkState [1] (fun _ => "OpenCL 1.2".toList) [7, 9]

/-! ## Strings: `find` decides the substring relation -/

theorem findFrom_ne_none_iff (pat : List Char) (s : List Char) (pos : Nat) :
    findFrom pat s pos ≠ none ↔ pat <:+: s := by
  induction s generalizing pos with
  | nil =>
    by_cases h : pat = [] <;> simp [findFrom, h]
  | cons c cs ih =>
    unfold findFrom
    by_cases h : pat.isPrefixOf (c :: cs) = true
    · simp only [h, if_true]
      have hp : pat <+: c :: cs := List.isPrefixOf_iff_prefix.mp h
      simp [hp.isInfix]
    · simp only [h]
      have hp : ¬ pat <+: c :: cs := fun hp => h (List.isPrefixOf_iff_prefix.mpr hp)
      rw [List.infix_cons_iff]
      simp [ih, hp]

theorem find_ne_none_iff (s pat : List Char) : find s pat ≠ none ↔ pat <:+: s :=
  findFrom_ne_none_iff pat s 0

/-- A pattern that does not contain `c` occurs in `s ++ [c]` exactly when it occurs in `s`. -/
theorem infix_concat_iff (pat s : List Char) (c : Char) (hne : pat ≠ []) (hc : c ∉ pat) :
    pat <:+: s ++ [c] ↔ pat <:+: s := by
  constructor
  · rintro ⟨a, b, hab⟩
    rcases List.eq_nil_or_concat b with hb | ⟨b', x, hb⟩
    · subst hb
      exfalso
      have h1 : (a ++ pat ++ []).getLast? = (s ++ [c]).getLast? := by rw [hab]
      simp [List.getLast?_append, List.getLast?_eq_getLast pat hne] at h1
      exact hc (h1 ▸ List.getLast_mem hne)
    · subst hb
      have h2 : a ++ pat ++ b' = s := by
        have := congrArg List.dropLast hab
        simpa [← List.append_assoc, List.dropLast_concat] using this
      exact ⟨a, b', h2⟩
  · intro h
    exact h.trans (List.prefix_append s [c]).isInfix

theorem cstr_append_nul (a rest : List Char) : cstr (a ++ NUL :: rest) = cstr a := by
  induction a with
  | nil => simp [cstr]
  | cons c cs ih =>
    by_cases h : c = NUL
    · simp [cstr, h]
    · simp only [cstr] at ih
      simp only [cstr, List.cons_append, List.takeWhile_cons, h, ne_eq, not_false_eq_true,
        decide_True, if_true, ih]

theorem cstr_terminated (a : List Char) : cstr (a ++ [NUL]) = cstr a := cstr_append_nul a []

/-- The string read from a buffer holds no terminator. -/
theorem nul_not_mem_cstr (b : List Char) : NUL ∉ cstr b := by
  induction b with
  | nil => simp [cstr]
  | cons c cs ih =>
    by_cases h : c = NUL
    · simp [cstr, h]
    · simp only [cstr] at ih
      simp only [cstr, List.takeWhile_cons, h, ne_eq, not_false_eq_true, decide_True, if_true,
        List.mem_cons, not_or]
      exact ⟨fun h' => h h'.symm, ih⟩

/-- The string read from terminated bytes is followed, in those bytes, by a terminator. -/
theorem cstr_split (a : List Char) : ∃ rest, a ++ [NUL] = cstr (a ++ [NUL]) ++ NUL :: rest := by
  induction a with
  | nil => exact ⟨[], by simp [cstr]⟩
  | cons c cs ih =>
    by_cases h : c = NUL
    · exact ⟨cs ++ [NUL], by simp [cstr, h]⟩
    · obtain ⟨rest, hr⟩ := ih
      refine ⟨rest, ?_⟩
      simp only [cstr] at hr
      simp only [cstr, List.cons_append, List.takeWhile_cons, h, ne_eq, not_false_eq_true,
        decide_True, if_true, List.cons.injEq, true_and]
      exact hr

/-- Bytes without a terminator inside are read back as they are. -/
theorem cstr_of_nul_free (a : List Char) (h : NUL ∉ a) : cstr (a ++ [NUL]) = a := by
  induction a with
  | nil => simp [cstr]
  | cons c cs ih =>
    have hc : ¬ c = NUL := fun hc => h (by simp [hc])
    have hcs : NUL ∉ cs := fun hm => h (List.mem_cons_of_mem _ hm)
    have := ih hcs
    simp only [cstr] at this
    simp only [cstr, List.cons_append, List.takeWhile_cons, hc, ne_eq, not_false_eq_true,
      decide_True, if_true, List.cons.injEq, true_and]
    exact this

theorem nul_not_mem_v10 : NUL ∉ ['1', '.', '0'] := by decide

theorem nul_not_mem_v11 : NUL ∉ ['1', '.', '1'] := by decide

/-! ## The runtime under native calls -/

@[simp] theorem Native.issue_state (w : Native) (c : NativeCall) (st : cl_int) :
    (w.issue c st).state = w.state := rfl

@[simp] theorem Native.issue_clock (w : Native) (c : NativeCall) (st : cl_int) :
    (w.issue c st).clock = w.clock + 1 := rfl

@[simp] theorem Native.issue_trace (w : Native) (c : NativeCall) (st : cl_int) :
    (w.issue c st).trace = w.trace ++ [⟨c, st⟩] := rfl

theorem Native.now_of_steady (w : Native) (s : NativeState) (h : ∀ t, w.state t = s) :
    w.now = s := h w.clock

/-! ## A steady runtime in which every call succeeds -/

/-- In a steady all-success runtime the two-call pattern returns the property string. -/
theorem GetPlatformInfoParameter_steady (w : Native) (s : NativeState) (id : cl_platform_id)
    (param : cl_platform_info) (hs : ∀ t, w.state t = s) (hok : ∀ c, s.status c = CL_SUCCESS) :
    (CLWPlatform.GetPlatformInfoParameter w id param).outcome
        = .returned (cstr (s.info id param ++ [NUL])) ∧
      (CLWPlatform.GetPlatformInfoParameter w id param).native.state = w.state := by
  have h0 : w.now = s := hs w.clock
  have h1 : ∀ c st, (w.issue c st).now = s := fun c st => hs _
  simp [CLWPlatform.GetPlatformInfoParameter, clGetPlatformInfo_size, clGetPlatformInfo_fetch,
    h0, h1, hok, cstr_append_nul]

theorem construct_steady (w : Native) (s : NativeState) (id : cl_platform_id)
    (type : cl_device_type) (hs : ∀ t, w.state t = s) (hok : ∀ c, s.status c = CL_SUCCESS) :
    (CLWPlatform.construct w id type).outcome = .returned (platformOf s id type) ∧
      (CLWPlatform.construct w id type).native.state = w.state := by
  obtain ⟨o1, n1⟩ := GetPlatformInfoParameter_steady w s id CL_PLATFORM_NAME hs hok
  have hs1 : ∀ t, (CLWPlatform.GetPlatformInfoParameter w id CL_PLATFORM_NAME).native.state t = s :=
    fun t => by rw [n1]; exact hs t
  obtain ⟨o2, n2⟩ := GetPlatformInfoParameter_steady _ s id CL_PLATFORM_PROFILE hs1 hok
  have hs2 : ∀ t, (CLWPlatform.GetPlatformInfoParameter
      (CLWPlatform.GetPlatformInfoParameter w id CL_PLATFORM_NAME).native
      id CL_PLATFORM_PROFILE).native.state t = s :=
    fun t => by rw [n2]; exact hs1 t
  obtain ⟨o3, n3⟩ := GetPlatformInfoParameter_steady _ s id CL_PLATFORM_VENDOR hs2 hok
  have hs3 : ∀ t, (CLWPlatform.GetPlatformInfoParameter
      (CLWPlatform.GetPlatformInfoParameter
        (CLWPlatform.GetPlatformInfoParameter w id CL_PLATFORM_NAME).native
        id CL_PLATFORM_PROFILE).native id CL_PLATFORM_VENDOR).native.state t = s :=
    fun t => by rw [n3]; exact hs2 t
  obtain ⟨o4, n4⟩ := GetPlatformInfoParameter_steady _ s id CL_PLATFORM_VERSION hs3 hok
  simp only [CLWPlatform.construct, o1, o2, o3, o4, n4, n3, n2, n1, platformOf, and_self]

theorem versionLoop_steady (s : NativeState) (hok : ∀ c, s.status c = CL_SUCCESS)
    (ids : List cl_platform_id) :
    ∀ (w : Native) (validIds : List cl_platform_id), (∀ t, w.state t = s) →
      (CLWPlatform.versionLoop w ids validIds).1
          = validIds ++ ids.filter (fun id => keepsVersion (s.info id CL_PLATFORM_VERSION)) ∧
        (CLWPlatform.versionLoop w ids validIds).2.state = w.state := by
  induction ids with
  | nil => intro w validIds _; simp [CLWPlatform.versionLoop]
  | cons id rest ih =>
    intro w validIds hs
    have h0 : w.now = s := hs w.clock
    have h1 : ∀ c st, (w.issue c st).now = s := fun c st => hs _
    have hv : (clGetPlatformInfo_fetch (clGetPlatformInfo_size w id CL_PLATFORM_VERSION 0).native
        id CL_PLATFORM_VERSION (clGetPlatformInfo_size w id CL_PLATFORM_VERSION 0).value
        (List.replicate (clGetPlatformInfo_size w id CL_PLATFORM_VERSION 0).value NUL)).value
          = s.info id CL_PLATFORM_VERSION ++ [NUL] := by
      simp [clGetPlatformInfo_size, clGetPlatformInfo_fetch, h0, h1, hok]
    have hst : ∀ t, (clGetPlatformInfo_fetch
        (clGetPlatformInfo_size w id CL_PLATFORM_VERSION 0).native
        id CL_PLATFORM_VERSION (clGetPlatformInfo_size w id CL_PLATFORM_VERSION 0).value
        (List.replicate (clGetPlatformInfo_size w id CL_PLATFORM_VERSION 0).value NUL)).native.state t
          = s := by
      intro t
      simp [clGetPlatformInfo_size, clGetPlatformInfo_fetch, hs]
    have hw : (clGetPlatformInfo_fetch
        (clGetPlatformInfo_size w id CL_PLATFORM_VERSION 0).native
        id CL_PLATFORM_VERSION (clGetPlatformInfo_size w id CL_PLATFORM_VERSION 0).value
        (List.replicate (clGetPlatformInfo_size w id CL_PLATFORM_VERSION 0).value NUL)).native.state
          = w.state := by
      simp [clGetPlatformInfo_size, clGetPlatformInfo_fetch]
    unfold CLWPlatform.versionLoop
    simp only [hv, find_ne_none_iff]
    have e10 := infix_concat_iff ['1', '.', '0'] (s.info id CL_PLATFORM_VERSION) NUL (by simp)
      nul_not_mem_v10
    have e11 := infix_concat_iff ['1', '.', '1'] (s.info id CL_PLATFORM_VERSION) NUL (by simp)
      nul_not_mem_v11
    simp only [e10, e11]
    by_cases hk : ['1', '.', '0'] <:+: s.info id CL_PLATFORM_VERSION ∨
        ['1', '.', '1'] <:+: s.info id CL_PLATFORM_VERSION
    · rw [if_pos hk]
      obtain ⟨e1, e2⟩ := ih _ validIds hst
      refine ⟨?_, by rw [e2, hw]⟩
      rw [e1, List.filter_cons_of_neg (by simp [keepsVersion, hk])]
    · rw [if_neg hk]
      obtain ⟨e1, e2⟩ := ih _ (validIds ++ [id]) hst
      refine ⟨?_, by rw [e2, hw]⟩
      rw [e1, List.filter_cons_of_pos (by simp [keepsVersion, hk])]
      simp

theorem transformCreate_steady (s : NativeState) (hok : ∀ c, s.status c = CL_SUCCESS)
    (type : cl_device_type) (ids : List cl_platform_id) :
    ∀ (w : Native) (platforms : List CLWPlatform), (∀ t, w.state t = s) →
      (CLWPlatform.transformCreate type w ids platforms).outcome = .returned () ∧
        (CLWPlatform.transformCreate type w ids platforms).state
          = platforms ++ ids.map (fun id => platformOf s id type) := by
  induction ids with
  | nil => intro w platforms _; simp [CLWPlatform.transformCreate]
  | cons id rest ih =>
    intro w platforms hs
    obtain ⟨o, n⟩ := construct_steady w s id type hs hok
    have hs1 : ∀ t, (CLWPlatform.construct w id type).native.state t = s :=
      fun t => by rw [n]; exact hs t
    obtain ⟨e1, e2⟩ := ih _ (platforms ++ [platformOf s id type]) hs1
    simp only [CLWPlatform.transformCreate, CLWPlatform.Create, o, e1, e2, true_and]
    simp

/-! ## Platform enumeration -/

/-- C1: in a steady runtime in which every native call succeeds, `CreateAllPlatforms` returns
normally and the handles of the platforms in its output are the native handle list, in the
native order, without exactly those handles whose version string contains "1.0" or "1.1";
each platform's `GetVersion` is the native version string up to its terminator. -/
theorem C1_handles_are_filtered_native_list (apple : Bool) (w : Native) (s : NativeState)
    (platforms : List CLWPlatform) (hsteady : ∀ t, w.state t = s)
    (hok : ∀ c, s.status c = CL_SUCCESS) :
    (CLWPlatform.CreateAllPlatforms apple w platforms).outcome = .returned () ∧
      (CLWPlatform.CreateAllPlatforms apple w platforms).state.map (fun p => p.id)
        = s.platforms.filter (fun id =>
            decide (¬ (['1', '.', '0'] <:+: s.info id CL_PLATFORM_VERSION ∨
              ['1', '.', '1'] <:+: s.info id CL_PLATFORM_VERSION))) ∧
      ∀ p ∈ (CLWPlatform.CreateAllPlatforms apple w platforms).state,
        p.GetVersion = cstr (s.info p.id CL_PLATFORM_VERSION ++ [NUL]) := by
  have h0 : w.now = s := hsteady w.clock
  have h1 : ∀ c st, (w.issue c st).now = s := fun c st => hsteady _
  have hids : (clGetPlatformIDs_fetch (clGetPlatformIDs_count w 0).native
      (clGetPlatformIDs_count w 0).value
      (List.replicate (clGetPlatformIDs_count w 0).value 0)).value = s.platforms := by
    simp [clGetPlatformIDs_count, clGetPlatformIDs_fetch, h0, h1, hok]
  have hst : ∀ t, (clGetPlatformIDs_fetch (clGetPlatformIDs_count w 0).native
      (clGetPlatformIDs_count w 0).value
      (List.replicate (clGetPlatformIDs_count w 0).value 0)).native.state t = s := by
    intro t
    simp [clGetPlatformIDs_count, clGetPlatformIDs_fetch, hsteady]
  have hs1 : (clGetPlatformIDs_count w 0).status = CL_SUCCESS := by
    simp [clGetPlatformIDs_count, h0, hok]
  have hs2 : (clGetPlatformIDs_fetch (clGetPlatformIDs_count w 0).native
      (clGetPlatformIDs_count w 0).value
      (List.replicate (clGetPlatformIDs_count w 0).value 0)).status = CL_SUCCESS := by
    simp [clGetPlatformIDs_count, clGetPlatformIDs_fetch, h1, hok]
  obtain ⟨l1, l2⟩ := versionLoop_steady s hok s.platforms _ [] hst
  have hst2 : ∀ t, (CLWPlatform.versionLoop (clGetPlatformIDs_fetch (clGetPlatformIDs_count w 0).native
      (clGetPlatformIDs_count w 0).value
      (List.replicate (clGetPlatformIDs_count w 0).value 0)).native s.platforms []).2.state t = s :=
    fun t => by rw [l2]; exact hst t
  obtain ⟨t1, t2⟩ := transformCreate_steady s hok
    (if apple then CL_DEVICE_TYPE_GPU else CL_DEVICE_TYPE_ALL) _ _ [] hst2
  have hrun : CLWPlatform.CreateAllPlatforms apple w platforms
      = CLWPlatform.transformCreate (if apple then CL_DEVICE_TYPE_GPU else CL_DEVICE_TYPE_ALL)
          (CLWPlatform.versionLoop (clGetPlatformIDs_fetch (clGetPlatformIDs_count w 0).native
            (clGetPlatformIDs_count w 0).value
            (List.replicate (clGetPlatformIDs_count w 0).value 0)).native s.platforms []).2
          (CLWPlatform.versionLoop (clGetPlatformIDs_fetch (clGetPlatformIDs_count w 0).native
            (clGetPlatformIDs_count w 0).value
            (List.replicate (clGetPlatformIDs_count w 0).value 0)).native s.platforms []).1 [] := by
    simp only [CLWPlatform.CreateAllPlatforms, hs1, hs2, hids, ne_eq, not_true_eq_false, if_false]
  rw [hrun, t1, t2, l1]
  refine ⟨rfl, ?_, ?_⟩
  · simp [List.map_map, Function.comp_def, platformOf, keepsVersion]
  · intro p hp
    simp only [List.nil_append, List.mem_map] at hp
    obtain ⟨id, _, rfl⟩ := hp
    rfl

/-- C1, the scenario of the specification: versions "OpenCL 1.1" and "OpenCL 1.2 Mesa" give
exactly one platform, the second one. -/
theorem C1_handles_are_filtered_native_list_witness :
    (∀ t, (steady mesaState).state t = mesaState) ∧
      (∀ c, mesaState.status c = CL_SUCCESS) ∧
      ((CLWPlatform.CreateAllPlatforms false (steady mesaState) []).outcome = .returned () ∧
        (CLWPlatform.CreateAllPlatforms false (steady mesaState) []).state.map (fun p => p.id)
          = mesaState.platforms.filter (fun id =>
              decide (¬ (['1', '.', '0'] <:+: mesaState.info id CL_PLATFORM_VERSION ∨
                ['1', '.', '1'] <:+: mesaState.info id CL_PLATFORM_VERSION))) ∧
        ∀ p ∈ (CLWPlatform.CreateAllPlatforms false (steady mesaState) []).state,
          p.GetVersion = cstr (mesaState.info p.id CL_PLATFORM_VERSION ++ [NUL])) ∧
      (CLWPlatform.CreateAllPlatforms false (steady mesaState) []).state.map (fun p => p.id) = [2] ∧
      (CLWPlatform.CreateAllPlatforms false (steady mesaState) []).state.map
        CLWPlatform.GetVersion = ["OpenCL 1.2 Mesa".toList] :=
  ⟨fun _ => rfl, fun _ => rfl,
    C1_handles_are_filtered_native_list false (steady mesaState) mesaState []
      (fun _ => rfl) (fun _ => rfl),
    by decide, by decide⟩

/-- C2: a platform of version 1.2 whose version string is "OpenCL 1.2 CUDA 10.1.120" is
left out by `CreateAllPlatforms`, because "1.1" occurs in the vendor text; the call returns
normally with an empty output. -/
theorem C2_vendor_text_excludes_version_1_2 :
    "OpenCL 1.2 ".toList <+: cudaState.info 1 CL_PLATFORM_VERSION ∧
      (∀ c, cudaState.status c = CL_SUCCESS) ∧
      (CLWPlatform.CreateAllPlatforms false (steady cudaState) []).outcome = .returned () ∧
      (CLWPlatform.CreateAllPlatforms false (steady cudaState) []).state = [] ∧
      find (cudaState.info 1 CL_PLATFORM_VERSION ++ [NUL]) ['1', '.', '1'] = some 19 :=
  ⟨by decide, fun _ => rfl, by decide, by decide, by decide⟩

/-- C3: with the version-loop size probe failing with status -6 (and the fetch that follows
it, on an empty buffer, failing with `CL_INVALID_VALUE`), `CreateAllPlatforms` returns
normally with one platform: both statuses are dropped. -/
theorem C3_version_loop_status_dropped :
    (CLWPlatform.CreateAllPlatforms false probeFailsOnce []).outcome = .returned () ∧
      (CLWPlatform.CreateAllPlatforms false probeFailsOnce []).state.map (fun p => p.id) = [1] ∧
      (CLWPlatform.CreateAllPlatforms false probeFailsOnce []).native.trace.take 4
        = [⟨.platformCount, 0⟩, ⟨.platformFetch 1, 0⟩,
           ⟨.infoSize 1 CL_PLATFORM_VERSION, -6⟩, ⟨.infoFetch 1 CL_PLATFORM_VERSION 0, -30⟩] ∧
      (CLWPlatform.CreateAllPlatforms false probeFailsOnce []).native.trace.length = 12 :=
  ⟨by decide, by decide, by decide, by decide⟩

/-- C4: when the platform count query fails, `CreateAllPlatforms` throws the error carrying
that status, the count query is the only native call issued, and the caller's vector is
unchanged. -/
theorem C4_count_failure_leaves_output (apple : Bool) (w : Native)
    (platforms : List CLWPlatform)
    (hfail : w.now.status .platformCount ≠ CL_SUCCESS) :
    (CLWPlatform.CreateAllPlatforms apple w platforms).outcome
        = .thrown ⟨w.now.status .platformCount, "clGetPlatformIDs failed"⟩ ∧
      (CLWPlatform.CreateAllPlatforms apple w platforms).native.trace
        = w.trace ++ [⟨.platformCount, w.now.status .platformCount⟩] ∧
      (CLWPlatform.CreateAllPlatforms apple w platforms).native.clock = w.clock + 1 ∧
      (CLWPlatform.CreateAllPlatforms apple w platforms).state = platforms := by
  simp [CLWPlatform.CreateAllPlatforms, clGetPlatformIDs_count, hfail]

/-- C4 at a runtime whose count query answers -1001, with a caller's vector holding one
platform. -/
theorem C4_count_failure_leaves_output_witness :
    (steady (failing mesaState .platformCount (-1001))).now.status .platformCount ≠ CL_SUCCESS ∧
      (CLWPlatform.CreateAllPlatforms false (steady (failing mesaState .platformCount (-1001)))
          [platformOf mesaState 2 CL_DEVICE_TYPE_ALL]).outcome
        = .thrown ⟨-1001, "clGetPlatformIDs failed"⟩ ∧
      (CLWPlatform.CreateAllPlatforms false (steady (failing mesaState .platformCount (-1001)))
          [platformOf mesaState 2 CL_DEVICE_TYPE_ALL]).native.trace
        = [⟨.platformCount, -1001⟩] ∧
      (CLWPlatform.CreateAllPlatforms false (steady (failing mesaState .platformCount (-1001)))
          [platformOf mesaState 2 CL_DEVICE_TYPE_ALL]).state
        = [platformOf mesaState 2 CL_DEVICE_TYPE_ALL] :=
  have h := C4_count_failure_leaves_output false
    (steady (failing mesaState .platformCount (-1001)))
    [platformOf mesaState 2 CL_DEVICE_TYPE_ALL] (by decide)
  ⟨by decide, h.1, h.2.1, h.2.2.2⟩

/-! ## Device enumeration -/

theorem fetchedIds_length (n : Nat) (ds : List cl_device_id) : (fetchedIds n ds).length = n := by
  simp only [fetchedIds, List.length_append, List.length_take, List.length_replicate]
  omega

theorem fetchedIds_self (ds : List cl_device_id) : fetchedIds ds.length ds = ds := by
  simp [fetchedIds]

theorem range_map_getD (l : List cl_device_id) :
    (List.range l.length).map (fun i => CLWDevice.mk (l.getD i 0)) = l.map CLWDevice.mk := by
  apply List.ext_getElem
  · simp
  · intro i h1 h2
    simp only [List.length_map, List.length_range] at h1
    simp [List.getElem?_eq_getElem h1]

/-- The three ways `InitDeviceList` can end: the count query fails, the fetch fails (the
platform is unchanged in both), or both succeed and one device per fetched handle is appended
to the cache. -/
theorem InitDeviceList_cases (k : Nat) (tr : List NativeEvent) (st : Nat → NativeState)
    (this : CLWPlatform) (type : cl_device_type) :
    (∃ e, e ≠ CL_SUCCESS ∧ e = (st k).status (.deviceCount this.id type) ∧
        CLWPlatform.InitDeviceList ⟨k, tr, st⟩ this type
          = ⟨.thrown ⟨e, "clGetDeviceIDs failed"⟩,
              ⟨k + 1, tr ++ [⟨.deviceCount this.id type, e⟩], st⟩, this⟩) ∨
      (∃ e, e ≠ CL_SUCCESS ∧ (st k).status (.deviceCount this.id type) = CL_SUCCESS ∧
        e = (st (k + 1)).status
          (.deviceFetch this.id type ((st k).devices this.id type).length) ∧
        CLWPlatform.InitDeviceList ⟨k, tr, st⟩ this type
          = ⟨.thrown ⟨e, "clGetDeviceIDs failed"⟩,
              ⟨k + 2, tr ++ [⟨.deviceCount this.id type, CL_SUCCESS⟩,
                ⟨.deviceFetch this.id type ((st k).devices this.id type).length, e⟩], st⟩,
              this⟩) ∨
      ((st k).status (.deviceCount this.id type) = CL_SUCCESS ∧
        (st (k + 1)).status
          (.deviceFetch this.id type ((st k).devices this.id type).length) = CL_SUCCESS ∧
        CLWPlatform.InitDeviceList ⟨k, tr, st⟩ this type
          = ⟨.returned (),
              ⟨k + 2, tr ++ [⟨.deviceCount this.id type, CL_SUCCESS⟩,
                ⟨.deviceFetch this.id type ((st k).devices this.id type).length, CL_SUCCESS⟩],
                st⟩,
              { this with devices_ := this.devices_ ++
                  (fetchedIds ((st k).devices this.id type).length
                    ((st (k + 1)).devices this.id type)).map CLWDevice.mk }⟩) := by
  by_cases h0 : (st k).status (.deviceCount this.id type) = CL_SUCCESS
  · by_cases h1 : (st (k + 1)).status
        (.deviceFetch this.id type ((st k).devices this.id type).length) = CL_SUCCESS
    · right; right
      refine ⟨h0, h1, ?_⟩
      have hlen := fetchedIds_length ((st k).devices this.id type).length
        ((st (k + 1)).devices this.id type)
      have hmap := range_map_getD (fetchedIds ((st k).devices this.id type).length
        ((st (k + 1)).devices this.id type))
      rw [hlen] at hmap
      have hval : List.take ((st k).devices this.id type).length ((st (k + 1)).devices this.id type)
          ++ List.drop
            (List.take ((st k).devices this.id type).length
              ((st (k + 1)).devices this.id type)).length
            (List.replicate ((st k).devices this.id type).length 0)
          = fetchedIds ((st k).devices this.id type).length
              ((st (k + 1)).devices this.id type) := by
        simp only [fetchedIds, List.drop_replicate, List.length_take]
        congr 2
        omega
      simp only [CLWPlatform.InitDeviceList, clGetDeviceIDs_count, clGetDeviceIDs_fetch,
        Native.now, Native.issue, h0, h1, ne_eq, not_true_eq_false, if_false, if_true, hval,
        hmap, List.append_assoc, List.singleton_append]
    · right; left
      refine ⟨_, h1, h0, rfl, ?_⟩
      simp [CLWPlatform.InitDeviceList, clGetDeviceIDs_count, clGetDeviceIDs_fetch,
        Native.now, Native.issue, h0, h1]
  · left
    refine ⟨_, h0, rfl, ?_⟩
    simp [CLWPlatform.InitDeviceList, clGetDeviceIDs_count, Native.now, Native.issue, h0]

/-- An accessor only ever touches the device cache of the platform. -/
theorem GetDeviceCount_state (w : Native) (p : CLWPlatform) :
    ∃ ds, (CLWPlatform.GetDeviceCount w p).state = { p with devices_ := ds } := by
  obtain ⟨k, tr, st⟩ := w
  unfold CLWPlatform.GetDeviceCount
  split
  · rcases InitDeviceList_cases k tr st p p.type_ with ⟨e, _, _, h⟩ | ⟨e, _, _, _, h⟩ | ⟨_, _, h⟩ <;>
      simp only [h] <;> exact ⟨_, rfl⟩
  · exact ⟨p.devices_, rfl⟩

theorem GetDevice_state (w : Native) (p : CLWPlatform) (idx : Nat) :
    ∃ ds, (CLWPlatform.GetDevice w p idx).state = { p with devices_ := ds } := by
  obtain ⟨k, tr, st⟩ := w
  unfold CLWPlatform.GetDevice
  split
  · rcases InitDeviceList_cases k tr st p p.type_ with ⟨e, _, _, h⟩ | ⟨e, _, _, _, h⟩ | ⟨_, _, h⟩ <;>
      simp only [h] <;> exact ⟨_, rfl⟩
  · exact ⟨p.devices_, rfl⟩

/-- With a non-empty cache an accessor issues no native call and changes nothing. -/
theorem GetDeviceCount_cached (w : Native) (p : CLWPlatform) (h : p.devices_ ≠ []) :
    CLWPlatform.GetDeviceCount w p = ⟨.returned p.devices_.length, w, p⟩ := by
  have : ¬ p.devices_.length = 0 := fun h0 => h (List.length_eq_zero.mp h0)
  simp [CLWPlatform.GetDeviceCount, this]

theorem GetDevice_cached (w : Native) (p : CLWPlatform) (idx : Nat) (h : p.devices_ ≠ []) :
    CLWPlatform.GetDevice w p idx = ⟨p.deviceAt idx, w, p⟩ := by
  have : ¬ p.devices_.length = 0 := fun h0 => h (List.length_eq_zero.mp h0)
  simp [CLWPlatform.GetDevice, this]

/-- The device accessors leave the four cached strings of a platform as they are. -/
theorem accessors_keep_strings (w : Native) (p : CLWPlatform) (idx : Nat) :
    (CLWPlatform.GetDeviceCount w p).state.GetName = p.GetName ∧
      (CLWPlatform.GetDeviceCount w p).state.GetProfile = p.GetProfile ∧
      (CLWPlatform.GetDeviceCount w p).state.GetVendor = p.GetVendor ∧
      (CLWPlatform.GetDeviceCount w p).state.GetVersion = p.GetVersion ∧
      (CLWPlatform.GetDevice w p idx).state.GetName = p.GetName ∧
      (CLWPlatform.GetDevice w p idx).state.GetProfile = p.GetProfile ∧
      (CLWPlatform.GetDevice w p idx).state.GetVendor = p.GetVendor ∧
      (CLWPlatform.GetDevice w p idx).state.GetVersion = p.GetVersion := by
  obtain ⟨ds, h1⟩ := GetDeviceCount_state w p
  obtain ⟨ds', h2⟩ := GetDevice_state w p idx
  rw [h1, h2]
  exact ⟨rfl, rfl, rfl, rfl, rfl, rfl, rfl, rfl⟩

/-! ## Platform construction -/

/-- The three ways `GetPlatformInfoParameter` can end: the probe fails, the fetch fails, or
both succeed and the fetched bytes up to the terminator are returned. -/
theorem GetPlatformInfoParameter_cases (k : Nat) (tr : List NativeEvent) (st : Nat → NativeState)
    (id : cl_platform_id) (param : cl_platform_info) :
    (∃ e, e ≠ CL_SUCCESS ∧
        CLWPlatform.GetPlatformInfoParameter ⟨k, tr, st⟩ id param
          = ⟨.thrown ⟨e, "clGetPlatformInfo failed"⟩,
              ⟨k + 1, tr ++ [⟨.infoSize id param, e⟩], st⟩⟩) ∨
      (∃ e, e ≠ CL_SUCCESS ∧
        CLWPlatform.GetPlatformInfoParameter ⟨k, tr, st⟩ id param
          = ⟨.thrown ⟨e, "clGetPlatformInfo failed"⟩,
              ⟨k + 2, tr ++ [⟨.infoSize id param, CL_SUCCESS⟩,
                ⟨.infoFetch id param (((st k).info id param).length + 1), e⟩], st⟩⟩) ∨
      CLWPlatform.GetPlatformInfoParameter ⟨k, tr, st⟩ id param
        = ⟨.returned (cstr ((st (k + 1)).info id param ++ [NUL])),
            ⟨k + 2, tr ++ [⟨.infoSize id param, CL_SUCCESS⟩,
              ⟨.infoFetch id param (((st k).info id param).length + 1), CL_SUCCESS⟩], st⟩⟩ := by
  by_cases h0 : (st k).status (.infoSize id param) = CL_SUCCESS
  · by_cases h1 : (st (k + 1)).status
        (.infoFetch id param (((st k).info id param).length + 1)) = CL_SUCCESS
    · have hne : CL_INVALID_VALUE ≠ CL_SUCCESS := by decide
      by_cases h2 : ((st k).info id param).length < ((st (k + 1)).info id param).length
      · right; left
        refine ⟨CL_INVALID_VALUE, hne, ?_⟩
        simp [CLWPlatform.GetPlatformInfoParameter, clGetPlatformInfo_size,
          clGetPlatformInfo_fetch, Native.now, Native.issue, h0, h1, h2, hne]
      · right; right
        simp [CLWPlatform.GetPlatformInfoParameter, clGetPlatformInfo_size,
          clGetPlatformInfo_fetch, Native.now, Native.issue, h0, h1, h2, cstr_append_nul]
    · right; left
      refine ⟨_, h1, ?_⟩
      simp [CLWPlatform.GetPlatformInfoParameter, clGetPlatformInfo_size,
        clGetPlatformInfo_fetch, Native.now, Native.issue, h0, h1]
  · left
    refine ⟨_, h0, ?_⟩
    simp [CLWPlatform.GetPlatformInfoParameter, clGetPlatformInfo_size, Native.now,
      Native.issue, h0]

/-- What a construction does, in terms of the calls it issued. -/
theorem construct_spec (w : Native) (id : cl_platform_id) (type : cl_device_type) :
    ∃ issued : List NativeEvent,
      (CLWPlatform.construct w id type).native
          = ⟨w.clock + issued.length, w.trace ++ issued, w.state⟩ ∧
        issued.map (fun ev => ev.call) <+: constructCalls w id ∧
        (∀ ev ∈ issued, ev.status ≠ CL_SUCCESS →
          (CLWPlatform.construct w id type).outcome
            = .thrown ⟨ev.status, "clGetPlatformInfo failed"⟩) ∧
        ((∀ ev ∈ issued, ev.status = CL_SUCCESS) →
          issued.map (fun ev => ev.call) = constructCalls w id ∧
          (CLWPlatform.construct w id type).outcome = .returned
            { id := id, type_ := type,
              name_ := cstr ((w.state (w.clock + 1)).info id CL_PLATFORM_NAME ++ [NUL]),
              profile_ := cstr ((w.state (w.clock + 3)).info id CL_PLATFORM_PROFILE ++ [NUL]),
              vendor_ := cstr ((w.state (w.clock + 5)).info id CL_PLATFORM_VENDOR ++ [NUL]),
              version_ := cstr ((w.state (w.clock + 7)).info id CL_PLATFORM_VERSION ++ [NUL]),
              extensions_ := [], devices_ := [] }) ∧
        (∀ p, (CLWPlatform.construct w id type).outcome = .returned p →
          ∀ ev ∈ issued, ev.status = CL_SUCCESS) := by
  obtain ⟨k, tr, st⟩ := w
  rcases GetPlatformInfoParameter_cases k
      (tr)
      st id CL_PLATFORM_NAME with ⟨e, he, h1⟩ | ⟨e, he, h1⟩ | h1
  · refine ⟨(CLWPlatform.construct ⟨k, tr, st⟩ id type).native.trace.drop tr.length, ?_⟩
    simp only [CLWPlatform.construct, h1]
    simp [constructCalls, Nat.add_assoc, he]
  · refine ⟨(CLWPlatform.construct ⟨k, tr, st⟩ id type).native.trace.drop tr.length, ?_⟩
    simp only [CLWPlatform.construct, h1]
    simp [constructCalls, Nat.add_assoc, he]
  rcases GetPlatformInfoParameter_cases (k + 2)
      (tr ++ [⟨.infoSize id CL_PLATFORM_NAME, CL_SUCCESS⟩,
        ⟨.infoFetch id CL_PLATFORM_NAME (((st k).info id CL_PLATFORM_NAME).length + 1), CL_SUCCESS⟩])
      st id CL_PLATFORM_PROFILE with ⟨e, he, h2⟩ | ⟨e, he, h2⟩ | h2
  · refine ⟨(CLWPlatform.construct ⟨k, tr, st⟩ id type).native.trace.drop tr.length, ?_⟩
    simp only [CLWPlatform.construct, h1, h2]
    simp [constructCalls, Nat.add_assoc, he]
  · refine ⟨(CLWPlatform.construct ⟨k, tr, st⟩ id type).native.trace.drop tr.length, ?_⟩
    simp only [CLWPlatform.construct, h1, h2]
    simp [constructCalls, Nat.add_assoc, he]
  rcases GetPlatformInfoParameter_cases (k + 2 + 2)
      (tr ++ [⟨.infoSize id CL_PLATFORM_NAME, CL_SUCCESS⟩,
        ⟨.infoFetch id CL_PLATFORM_NAME (((st k).info id CL_PLATFORM_NAME).length + 1), CL_SUCCESS⟩] ++
        [⟨.infoSize id CL_PLATFORM_PROFILE, CL_SUCCESS⟩,
        ⟨.infoFetch id CL_PLATFORM_PROFILE (((st (k + 2)).info id CL_PLATFORM_PROFILE).length + 1), CL_SUCCESS⟩])
      st id CL_PLATFORM_VENDOR with ⟨e, he, h3⟩ | ⟨e, he, h3⟩ | h3
  · refine ⟨(CLWPlatform.construct ⟨k, tr, st⟩ id type).native.trace.drop tr.length, ?_⟩
    simp only [CLWPlatform.construct, h1, h2, h3]
    simp [constructCalls, Nat.add_assoc, he]
  · refine ⟨(CLWPlatform.construct ⟨k, tr, st⟩ id type).native.trace.drop tr.length, ?_⟩
    simp only [CLWPlatform.construct, h1, h2, h3]
    simp [constructCalls, Nat.add_assoc, he]
  rcases GetPlatformInfoParameter_cases (k + 2 + 2 + 2)
      (tr ++ [⟨.infoSize id CL_PLATFORM_NAME, CL_SUCCESS⟩,
        ⟨.infoFetch id CL_PLATFORM_NAME (((st k).info id CL_PLATFORM_NAME).length + 1), CL_SUCCESS⟩] ++
        [⟨.infoSize id CL_PLATFORM_PROFILE, CL_SUCCESS⟩,
        ⟨.infoFetch id CL_PLATFORM_PROFILE (((st (k + 2)).info id CL_PLATFORM_PROFILE).length + 1), CL_SUCCESS⟩] ++
        [⟨.infoSize id CL_PLATFORM_VENDOR, CL_SUCCESS⟩,
        ⟨.infoFetch id CL_PLATFORM_VENDOR (((st (k + 2 + 2)).info id CL_PLATFORM_VENDOR).length + 1), CL_SUCCESS⟩])
      st id CL_PLATFORM_VERSION with ⟨e, he, h4⟩ | ⟨e, he, h4⟩ | h4
  · refine ⟨(CLWPlatform.construct ⟨k, tr, st⟩ id type).native.trace.drop tr.length, ?_⟩
    simp only [CLWPlatform.construct, h1, h2, h3, h4]
    simp [constructCalls, Nat.add_assoc, he]
  · refine ⟨(CLWPlatform.construct ⟨k, tr, st⟩ id type).native.trace.drop tr.length, ?_⟩
    simp only [CLWPlatform.construct, h1, h2, h3, h4]
    simp [constructCalls, Nat.add_assoc, he]
  refine ⟨(CLWPlatform.construct ⟨k, tr, st⟩ id type).native.trace.drop tr.length, ?_⟩
  simp only [CLWPlatform.construct, h1, h2, h3, h4]
  simp [constructCalls, Nat.add_assoc]

/-- C5: `Create` issues a prefix of the eight calls (size probe then fetch, for name,
profile, vendor, version); a non-success status of any call it issued is the status of the
error it throws; when all succeed the eight calls were issued and a platform is returned with
the handle and the device type given.  Each of `GetName`, `GetProfile`, `GetVendor` and
`GetVersion` is then the native string at the time of its fetch (the second, fourth, sixth and
eighth call) up to the terminator: it holds no terminator, the fetched bytes are that string
followed by a terminator, and it is the native string itself when that string holds no
terminator.  The getters are functions of the platform value alone, and the device accessors
leave the four strings as they are in every runtime. -/
theorem C5_construction_all_or_nothing (w : Native) (id : cl_platform_id)
    (type : cl_device_type) :
    ∃ issued : List NativeEvent,
      (CLWPlatform.Create w id type).native.trace = w.trace ++ issued ∧
        (CLWPlatform.Create w id type).native.clock = w.clock + issued.length ∧
        issued.map (fun ev => ev.call) <+: constructCalls w id ∧
        (∀ ev ∈ issued, ev.status ≠ CL_SUCCESS →
          (CLWPlatform.Create w id type).outcome
            = .thrown ⟨ev.status, "clGetPlatformInfo failed"⟩) ∧
        (∀ p, (CLWPlatform.Create w id type).outcome = .returned p →
          ∀ ev ∈ issued, ev.status = CL_SUCCESS) ∧
        ((∀ ev ∈ issued, ev.status = CL_SUCCESS) →
          issued.map (fun ev => ev.call) = constructCalls w id ∧
          ∃ p, (CLWPlatform.Create w id type).outcome = .returned p ∧
            p.id = id ∧ p.type_ = type ∧
            NUL ∉ p.GetName ∧
            (∃ rest, (w.state (w.clock + 1)).info id CL_PLATFORM_NAME ++ [NUL]
              = p.GetName ++ NUL :: rest) ∧
            (NUL ∉ (w.state (w.clock + 1)).info id CL_PLATFORM_NAME →
              p.GetName = (w.state (w.clock + 1)).info id CL_PLATFORM_NAME) ∧
            NUL ∉ p.GetProfile ∧
            (∃ rest, (w.state (w.clock + 3)).info id CL_PLATFORM_PROFILE ++ [NUL]
              = p.GetProfile ++ NUL :: rest) ∧
            (NUL ∉ (w.state (w.clock + 3)).info id CL_PLATFORM_PROFILE →
              p.GetProfile = (w.state (w.clock + 3)).info id CL_PLATFORM_PROFILE) ∧
            NUL ∉ p.GetVendor ∧
            (∃ rest, (w.state (w.clock + 5)).info id CL_PLATFORM_VENDOR ++ [NUL]
              = p.GetVendor ++ NUL :: rest) ∧
            (NUL ∉ (w.state (w.clock + 5)).info id CL_PLATFORM_VENDOR →
              p.GetVendor = (w.state (w.clock + 5)).info id CL_PLATFORM_VENDOR) ∧
            NUL ∉ p.GetVersion ∧
            (∃ rest, (w.state (w.clock + 7)).info id CL_PLATFORM_VERSION ++ [NUL]
              = p.GetVersion ++ NUL :: rest) ∧
            (NUL ∉ (w.state (w.clock + 7)).info id CL_PLATFORM_VERSION →
              p.GetVersion = (w.state (w.clock + 7)).info id CL_PLATFORM_VERSION) ∧
            ∀ (w' : Native) (idx : Nat),
              (CLWPlatform.GetDeviceCount w' p).state.GetName = p.GetName ∧
              (CLWPlatform.GetDeviceCount w' p).state.GetProfile = p.GetProfile ∧
              (CLWPlatform.GetDeviceCount w' p).state.GetVendor = p.GetVendor ∧
              (CLWPlatform.GetDeviceCount w' p).state.GetVersion = p.GetVersion ∧
              (CLWPlatform.GetDevice w' p idx).state.GetName = p.GetName ∧
              (CLWPlatform.GetDevice w' p idx).state.GetProfile = p.GetProfile ∧
              (CLWPlatform.GetDevice w' p idx).state.GetVendor = p.GetVendor ∧
              (CLWPlatform.GetDevice w' p idx).state.GetVersion = p.GetVersion) := by
  obtain ⟨issued, hn, hpre, hfail, hok, hret⟩ := construct_spec w id type
  refine ⟨issued, ?_, ?_, hpre, hfail, hret, ?_⟩
  · simp [CLWPlatform.Create, hn]
  · simp [CLWPlatform.Create, hn]
  · intro hall
    obtain ⟨hcalls, hout⟩ := hok hall
    refine ⟨hcalls, _, hout, rfl, rfl,
      nul_not_mem_cstr _, cstr_split _, cstr_of_nul_free _,
      nul_not_mem_cstr _, cstr_split _, cstr_of_nul_free _,
      nul_not_mem_cstr _, cstr_split _, cstr_of_nul_free _,
      nul_not_mem_cstr _, cstr_split _, cstr_of_nul_free _, ?_⟩
    intro w' idx
    exact accessors_keep_strings w' _ idx

/-- C5 on the second platform of `mesaState`, every call succeeding: `Create` returns the
platform whose four strings are "Platform", "FULL_PROFILE", "Vendor" and "OpenCL 1.2 Mesa". -/
theorem C5_construction_all_or_nothing_witness :
    ∃ p, (CLWPlatform.Create (steady mesaState) 2 CL_DEVICE_TYPE_ALL).outcome = .returned p ∧
      p.id = 2 ∧ p.type_ = CL_DEVICE_TYPE_ALL ∧
      p.GetName = "Platform".toList ∧
      p.GetProfile = "FULL_PROFILE".toList ∧
      p.GetVendor = "Vendor".toList ∧
      p.GetVersion = "OpenCL 1.2 Mesa".toList := by
  obtain ⟨issued, htr, _, _, _, _, hok⟩ :=
    C5_construction_all_or_nothing (steady mesaState) 2 CL_DEVICE_TYPE_ALL
  have hiss : issued = (CLWPlatform.Create (steady mesaState) 2 CL_DEVICE_TYPE_ALL).native.trace := by
    rw [htr]; rfl
  have hall : ∀ ev ∈ issued, ev.status = CL_SUCCESS := by
    rw [hiss]; decide
  obtain ⟨_, p, hp, hid, hty, _, _, hname, _, _, hprofile, _, _, hvendor, _, _, hversion, _⟩ :=
    hok hall
  exact ⟨p, hp, hid, hty, hname (by decide), hprofile (by decide), hvendor (by decide),
    hversion (by decide)⟩

/-- An evaluation of `Create` on the second platform of `mesaState`: the four strings are those
of the runtime, and eight native calls were issued. -/
theorem Create_mesa_example :
    (CLWPlatform.Create (steady mesaState) 2 CL_DEVICE_TYPE_ALL).outcome
        = .returned
          { id := 2, type_ := CL_DEVICE_TYPE_ALL, name_ := "Platform".toList,
            profile_ := "FULL_PROFILE".toList, vendor_ := "Vendor".toList,
            version_ := "OpenCL 1.2 Mesa".toList, extensions_ := [], devices_ := [] } ∧
      (CLWPlatform.Create (steady mesaState) 2 CL_DEVICE_TYPE_ALL).native.trace.length = 8 :=
  ⟨by decide, by decide⟩

theorem construct_extensions (w : Native) (id : cl_platform_id) (type : cl_device_type)
    (p : CLWPlatform) (h : (CLWPlatform.construct w id type).outcome = .returned p) :
    p.extensions_ = [] := by
  obtain ⟨issued, _, _, _, hok, hret⟩ := construct_spec w id type
  have hout := (hok (hret p h)).2
  rw [h] at hout
  injection hout with hp
  rw [hp]

theorem construct_devices (w : Native) (id : cl_platform_id) (type : cl_device_type)
    (p : CLWPlatform) (h : (CLWPlatform.construct w id type).outcome = .returned p) :
    p.devices_ = [] := by
  obtain ⟨issued, _, _, _, hok, hret⟩ := construct_spec w id type
  have hout := (hok (hret p h)).2
  rw [h] at hout
  injection hout with hp
  rw [hp]

theorem transformCreate_extensions (type : cl_device_type) (ids : List cl_platform_id) :
    ∀ (w : Native) (platforms : List CLWPlatform),
      ∀ p ∈ (CLWPlatform.transformCreate type w ids platforms).state,
        p ∈ platforms ∨ p.extensions_ = [] := by
  induction ids with
  | nil => intro w platforms p hp; exact Or.inl hp
  | cons id rest ih =>
    intro w platforms p hp
    unfold CLWPlatform.transformCreate at hp
    cases hc : (CLWPlatform.Create w id type).outcome with
    | thrown e => simp only [hc] at hp; exact Or.inl hp
    | undefined => simp only [hc] at hp; exact Or.inl hp
    | returned q =>
      simp only [hc] at hp
      rcases ih _ _ p hp with h | h
      · rcases List.mem_append.mp h with h' | h'
        · exact Or.inl h'
        · right
          rw [List.mem_singleton.mp h']
          exact construct_extensions w id type q hc
      · exact Or.inr h

/-- C10: a platform returned by `Create` has an empty `GetExtensions`, whatever the runtime
reports; every platform in the vector after `CreateAllPlatforms` either was in the caller's
vector before (the call threw before clearing it) or has an empty `GetExtensions`, and after a
normal return all of them have. -/
theorem C10_extensions_never_fetched (apple : Bool) (w : Native) (platforms : List CLWPlatform)
    (id : cl_platform_id) (type : cl_device_type) :
    (∀ p, (CLWPlatform.Create w id type).outcome = .returned p → p.GetExtensions = []) ∧
      (∀ p ∈ (CLWPlatform.CreateAllPlatforms apple w platforms).state,
        p ∈ platforms ∨ p.GetExtensions = []) ∧
      ((CLWPlatform.CreateAllPlatforms apple w platforms).outcome = .returned () →
        ∀ p ∈ (CLWPlatform.CreateAllPlatforms apple w platforms).state,
          p.GetExtensions = []) := by
  refine ⟨fun p h => construct_extensions w id type p h, ?_, ?_⟩
  · intro p hp
    unfold CLWPlatform.CreateAllPlatforms at hp
    simp only at hp
    split at hp
    · exact Or.inl hp
    · split at hp
      · exact Or.inl hp
      · rcases transformCreate_extensions _ _ _ _ p hp with h | h
        · simp at h
        · exact Or.inr h
  · intro hret p hp
    unfold CLWPlatform.CreateAllPlatforms at hp hret
    simp only at hp hret
    split at hp
    · rename_i hc; simp [hc] at hret
    · split at hp
      · rename_i hc1 hc2; simp [hc1, hc2] at hret
      · rcases transformCreate_extensions _ _ _ _ p hp with h | h
        · simp at h
        · exact h

/-! ## The device accessors on an empty cache -/

/-- On an empty cache: a failing count query makes `GetDeviceCount` throw its status after
one native call, leaving the platform unchanged. -/
theorem GetDeviceCount_count_fails (w : Native) (p : CLWPlatform) (hempty : p.devices_ = [])
    (h : (w.state w.clock).status (.deviceCount p.id p.type_) ≠ CL_SUCCESS) :
    CLWPlatform.GetDeviceCount w p
      = ⟨.thrown ⟨(w.state w.clock).status (.deviceCount p.id p.type_), "clGetDeviceIDs failed"⟩,
          ⟨w.clock + 1, w.trace ++ [⟨.deviceCount p.id p.type_,
            (w.state w.clock).status (.deviceCount p.id p.type_)⟩], w.state⟩, p⟩ := by
  obtain ⟨k, tr, st⟩ := w
  dsimp only at h ⊢
  rcases InitDeviceList_cases k tr st p p.type_ with
    ⟨e, he, he', hi⟩ | ⟨e, he, hc, he', hi⟩ | ⟨hc, _, hi⟩
  · subst he'
    simp [CLWPlatform.GetDeviceCount, hempty, hi]
  · exact absurd hc h
  · exact absurd hc h

/-- On an empty cache: a failing fetch makes `GetDeviceCount` throw its status after two native
calls, leaving the platform unchanged. -/
theorem GetDeviceCount_fetch_fails (w : Native) (p : CLWPlatform) (hempty : p.devices_ = [])
    (h0 : (w.state w.clock).status (.deviceCount p.id p.type_) = CL_SUCCESS)
    (h1 : (w.state (w.clock + 1)).status
      (.deviceFetch p.id p.type_ ((w.state w.clock).devices p.id p.type_).length) ≠ CL_SUCCESS) :
    CLWPlatform.GetDeviceCount w p
      = ⟨.thrown ⟨(w.state (w.clock + 1)).status
            (.deviceFetch p.id p.type_ ((w.state w.clock).devices p.id p.type_).length),
            "clGetDeviceIDs failed"⟩,
          ⟨w.clock + 2, w.trace ++ [⟨.deviceCount p.id p.type_, CL_SUCCESS⟩,
            ⟨.deviceFetch p.id p.type_ ((w.state w.clock).devices p.id p.type_).length,
              (w.state (w.clock + 1)).status
                (.deviceFetch p.id p.type_ ((w.state w.clock).devices p.id p.type_).length)⟩],
            w.state⟩, p⟩ := by
  obtain ⟨k, tr, st⟩ := w
  dsimp only at h0 h1 ⊢
  rcases InitDeviceList_cases k tr st p p.type_ with
    ⟨e, he, he', hi⟩ | ⟨e, he, hc, he', hi⟩ | ⟨hc, hf, hi⟩
  · exact absurd h0 (he' ▸ he)
  · subst he'
    simp [CLWPlatform.GetDeviceCount, hempty, hi]
  · exact absurd hf h1

/-- On an empty cache: when both queries succeed `GetDeviceCount` returns the count reported
and the cache holds one device per fetched handle. -/
theorem GetDeviceCount_success (w : Native) (p : CLWPlatform) (hempty : p.devices_ = [])
    (h0 : (w.state w.clock).status (.deviceCount p.id p.type_) = CL_SUCCESS)
    (h1 : (w.state (w.clock + 1)).status
      (.deviceFetch p.id p.type_ ((w.state w.clock).devices p.id p.type_).length) = CL_SUCCESS) :
    CLWPlatform.GetDeviceCount w p
      = ⟨.returned ((w.state w.clock).devices p.id p.type_).length,
          ⟨w.clock + 2, w.trace ++ [⟨.deviceCount p.id p.type_, CL_SUCCESS⟩,
            ⟨.deviceFetch p.id p.type_ ((w.state w.clock).devices p.id p.type_).length,
              CL_SUCCESS⟩], w.state⟩,
          { p with devices_ := (fetchedIds ((w.state w.clock).devices p.id p.type_).length
              ((w.state (w.clock + 1)).devices p.id p.type_)).map CLWDevice.mk }⟩ := by
  obtain ⟨k, tr, st⟩ := w
  dsimp only at h0 h1 ⊢
  rcases InitDeviceList_cases k tr st p p.type_ with ⟨e, he, he', _⟩ | ⟨e, he, _, he', _⟩ | ⟨_, _, h⟩
  · exact absurd h0 (he' ▸ he)
  · exact absurd h1 (he' ▸ he)
  · simp [CLWPlatform.GetDeviceCount, hempty, h, fetchedIds_length]

theorem GetDevice_count_fails (w : Native) (p : CLWPlatform) (idx : Nat)
    (hempty : p.devices_ = [])
    (h : (w.state w.clock).status (.deviceCount p.id p.type_) ≠ CL_SUCCESS) :
    CLWPlatform.GetDevice w p idx
      = ⟨.thrown ⟨(w.state w.clock).status (.deviceCount p.id p.type_), "clGetDeviceIDs failed"⟩,
          ⟨w.clock + 1, w.trace ++ [⟨.deviceCount p.id p.type_,
            (w.state w.clock).status (.deviceCount p.id p.type_)⟩], w.state⟩, p⟩ := by
  obtain ⟨k, tr, st⟩ := w
  dsimp only at h ⊢
  rcases InitDeviceList_cases k tr st p p.type_ with
    ⟨e, he, he', hi⟩ | ⟨e, he, hc, he', hi⟩ | ⟨hc, _, hi⟩
  · subst he'
    simp [CLWPlatform.GetDevice, hempty, hi]
  · exact absurd hc h
  · exact absurd hc h

theorem GetDevice_fetch_fails (w : Native) (p : CLWPlatform) (idx : Nat)
    (hempty : p.devices_ = [])
    (h0 : (w.state w.clock).status (.deviceCount p.id p.type_) = CL_SUCCESS)
    (h1 : (w.state (w.clock + 1)).status
      (.deviceFetch p.id p.type_ ((w.state w.clock).devices p.id p.type_).length) ≠ CL_SUCCESS) :
    CLWPlatform.GetDevice w p idx
      = ⟨.thrown ⟨(w.state (w.clock + 1)).status
            (.deviceFetch p.id p.type_ ((w.state w.clock).devices p.id p.type_).length),
            "clGetDeviceIDs failed"⟩,
          ⟨w.clock + 2, w.trace ++ [⟨.deviceCount p.id p.type_, CL_SUCCESS⟩,
            ⟨.deviceFetch p.id p.type_ ((w.state w.clock).devices p.id p.type_).length,
              (w.state (w.clock + 1)).status
                (.deviceFetch p.id p.type_ ((w.state w.clock).devices p.id p.type_).length)⟩],
            w.state⟩, p⟩ := by
  obtain ⟨k, tr, st⟩ := w
  dsimp only at h0 h1 ⊢
  rcases InitDeviceList_cases k tr st p p.type_ with
    ⟨e, he, he', hi⟩ | ⟨e, he, hc, he', hi⟩ | ⟨hc, hf, hi⟩
  · exact absurd h0 (he' ▸ he)
  · subst he'
    simp [CLWPlatform.GetDevice, hempty, hi]
  · exact absurd hf h1

theorem GetDevice_success (w : Native) (p : CLWPlatform) (idx : Nat)
    (hempty : p.devices_ = [])
    (h0 : (w.state w.clock).status (.deviceCount p.id p.type_) = CL_SUCCESS)
    (h1 : (w.state (w.clock + 1)).status
      (.deviceFetch p.id p.type_ ((w.state w.clock).devices p.id p.type_).length) = CL_SUCCESS) :
    CLWPlatform.GetDevice w p idx
      = ⟨CLWPlatform.deviceAt
            { p with devices_ := (fetchedIds ((w.state w.clock).devices p.id p.type_).length
              ((w.state (w.clock + 1)).devices p.id p.type_)).map CLWDevice.mk } idx,
          ⟨w.clock + 2, w.trace ++ [⟨.deviceCount p.id p.type_, CL_SUCCESS⟩,
            ⟨.deviceFetch p.id p.type_ ((w.state w.clock).devices p.id p.type_).length,
              CL_SUCCESS⟩], w.state⟩,
          { p with devices_ := (fetchedIds ((w.state w.clock).devices p.id p.type_).length
              ((w.state (w.clock + 1)).devices p.id p.type_)).map CLWDevice.mk }⟩ := by
  obtain ⟨k, tr, st⟩ := w
  dsimp only at h0 h1 ⊢
  rcases InitDeviceList_cases k tr st p p.type_ with ⟨e, he, he', _⟩ | ⟨e, he, _, he', _⟩ | ⟨_, _, h⟩
  · exact absurd h0 (he' ▸ he)
  · exact absurd h1 (he' ▸ he)
  · simp [CLWPlatform.GetDevice, hempty, h]

/-- The unchecked access is defined exactly below the size of the cache. -/
theorem deviceAt_of_lt (p : CLWPlatform) (idx : Nat) (h : idx < p.devices_.length) :
    p.deviceAt idx = .returned (p.devices_.get ⟨idx, h⟩) := by
  simp [CLWPlatform.deviceAt, List.getElem?_eq_getElem h]

theorem deviceAt_of_le (p : CLWPlatform) (idx : Nat) (h : p.devices_.length ≤ idx) :
    p.deviceAt idx = .undefined := by
  simp [CLWPlatform.deviceAt, List.getElem?_eq_none h]

/-- C6 (as amended): on a platform whose cache is empty, when the count query and the fetch
succeed and the count query reports at least one device, two calls of `GetDeviceCount` in a row
issue exactly one native call pair in total; the second call issues no native call, changes
nothing, and returns the same count. -/
theorem C6_second_count_from_cache (w : Native) (p : CLWPlatform)
    (hempty : p.devices_ = [])
    (hcount : (w.state w.clock).status (.deviceCount p.id p.type_) = CL_SUCCESS)
    (hfetch : (w.state (w.clock + 1)).status
      (.deviceFetch p.id p.type_ ((w.state w.clock).devices p.id p.type_).length) = CL_SUCCESS)
    (hsome : (w.state w.clock).devices p.id p.type_ ≠ []) :
    (CLWPlatform.GetDeviceCount w p).outcome
        = .returned ((w.state w.clock).devices p.id p.type_).length ∧
      (CLWPlatform.GetDeviceCountTwice w p).outcome
        = .returned ((w.state w.clock).devices p.id p.type_).length ∧
      (CLWPlatform.GetDeviceCountTwice w p).native.trace
        = w.trace ++ [⟨.deviceCount p.id p.type_, CL_SUCCESS⟩,
            ⟨.deviceFetch p.id p.type_ ((w.state w.clock).devices p.id p.type_).length,
              CL_SUCCESS⟩] ∧
      (CLWPlatform.GetDeviceCountTwice w p).native.trace
        = (CLWPlatform.GetDeviceCount w p).native.trace ∧
      (CLWPlatform.GetDeviceCountTwice w p).native.clock
        = (CLWPlatform.GetDeviceCount w p).native.clock ∧
      (CLWPlatform.GetDeviceCountTwice w p).state = (CLWPlatform.GetDeviceCount w p).state := by
  have h1 := GetDeviceCount_success w p hempty hcount hfetch
  have hlen : ((fetchedIds ((w.state w.clock).devices p.id p.type_).length
      ((w.state (w.clock + 1)).devices p.id p.type_)).map CLWDevice.mk).length
        = ((w.state w.clock).devices p.id p.type_).length := by
    rw [List.length_map, fetchedIds_length]
  have hne : ((fetchedIds ((w.state w.clock).devices p.id p.type_).length
      ((w.state (w.clock + 1)).devices p.id p.type_)).map CLWDevice.mk) ≠ [] := by
    intro h0
    rw [h0] at hlen
    exact hsome (List.length_eq_zero.mp hlen.symm)
  have h2 := GetDeviceCount_cached (CLWPlatform.GetDeviceCount w p).native
    (CLWPlatform.GetDeviceCount w p).state (by rw [h1]; exact hne)
  unfold CLWPlatform.GetDeviceCountTwice
  rw [h2]
  rw [h1]
  exact ⟨rfl, congrArg Outcome.returned hlen, rfl, rfl, rfl, rfl⟩

/-- C6 (as amended) on one platform with one device. -/
theorem C6_second_count_from_cache_witness :
    (platformOf plainState 1 CL_DEVICE_TYPE_ALL).devices_ = [] ∧
      (CLWPlatform.GetDeviceCount (steady plainState)
          (platformOf plainState 1 CL_DEVICE_TYPE_ALL)).outcome = .returned 1 ∧
      (CLWPlatform.GetDeviceCountTwice (steady plainState)
          (platformOf plainState 1 CL_DEVICE_TYPE_ALL)).outcome = .returned 1 ∧
      (CLWPlatform.GetDeviceCountTwice (steady plainState)
          (platformOf plainState 1 CL_DEVICE_TYPE_ALL)).native.trace
        = [⟨.deviceCount 1 CL_DEVICE_TYPE_ALL, CL_SUCCESS⟩,
            ⟨.deviceFetch 1 CL_DEVICE_TYPE_ALL 1, CL_SUCCESS⟩] :=
  have h := C6_second_count_from_cache (steady plainState)
    (platformOf plainState 1 CL_DEVICE_TYPE_ALL) rfl rfl rfl (by decide)
  ⟨rfl, h.1, h.2.1, h.2.2.1⟩

/-- C6 as stated fails on a platform with no device: both queries succeed, both calls return 0,
and the second call issues the native call pair again. -/
theorem C6_zero_devices_queried_again :
    (∀ c, emptyState.status c = CL_SUCCESS) ∧
      (platformOf emptyState 1 CL_DEVICE_TYPE_ALL).devices_ = [] ∧
      (CLWPlatform.GetDeviceCount (steady emptyState)
          (platformOf emptyState 1 CL_DEVICE_TYPE_ALL)).outcome = .returned 0 ∧
      (CLWPlatform.GetDeviceCountTwice (steady emptyState)
          (platformOf emptyState 1 CL_DEVICE_TYPE_ALL)).outcome = .returned 0 ∧
      (CLWPlatform.GetDeviceCountTwice (steady emptyState)
          (platformOf emptyState 1 CL_DEVICE_TYPE_ALL)).native.trace
        = [⟨.deviceCount 1 CL_DEVICE_TYPE_ALL, CL_SUCCESS⟩,
            ⟨.deviceFetch 1 CL_DEVICE_TYPE_ALL 0, CL_SUCCESS⟩,
            ⟨.deviceCount 1 CL_DEVICE_TYPE_ALL, CL_SUCCESS⟩,
            ⟨.deviceFetch 1 CL_DEVICE_TYPE_ALL 0, CL_SUCCESS⟩] ∧
      (CLWPlatform.GetDeviceCountTwice (steady emptyState)
          (platformOf emptyState 1 CL_DEVICE_TYPE_ALL)).native.trace
        ≠ (CLWPlatform.GetDeviceCount (steady emptyState)
          (platformOf emptyState 1 CL_DEVICE_TYPE_ALL)).native.trace :=
  ⟨fun _ => rfl, rfl, by decide, by decide, by decide, by decide⟩

/-- On an empty cache an accessor call starts with the native count query. -/
theorem GetDeviceCount_queries (w : Native) (p : CLWPlatform) (hempty : p.devices_ = []) :
    ∃ st rest, (CLWPlatform.GetDeviceCount w p).native.trace
      = w.trace ++ ⟨.deviceCount p.id p.type_, st⟩ :: rest := by
  by_cases h0 : (w.state w.clock).status (.deviceCount p.id p.type_) = CL_SUCCESS
  · by_cases h1 : (w.state (w.clock + 1)).status
        (.deviceFetch p.id p.type_ ((w.state w.clock).devices p.id p.type_).length) = CL_SUCCESS
    · rw [GetDeviceCount_success w p hempty h0 h1]; exact ⟨_, _, rfl⟩
    · rw [GetDeviceCount_fetch_fails w p hempty h0 h1]; exact ⟨_, _, rfl⟩
  · rw [GetDeviceCount_count_fails w p hempty h0]; exact ⟨_, _, rfl⟩

theorem GetDevice_queries (w : Native) (p : CLWPlatform) (idx : Nat)
    (hempty : p.devices_ = []) :
    ∃ st rest, (CLWPlatform.GetDevice w p idx).native.trace
      = w.trace ++ ⟨.deviceCount p.id p.type_, st⟩ :: rest := by
  by_cases h0 : (w.state w.clock).status (.deviceCount p.id p.type_) = CL_SUCCESS
  · by_cases h1 : (w.state (w.clock + 1)).status
        (.deviceFetch p.id p.type_ ((w.state w.clock).devices p.id p.type_).length) = CL_SUCCESS
    · rw [GetDevice_success w p idx hempty h0 h1]; exact ⟨_, _, rfl⟩
    · rw [GetDevice_fetch_fails w p idx hempty h0 h1]; exact ⟨_, _, rfl⟩
  · rw [GetDevice_count_fails w p idx hempty h0]; exact ⟨_, _, rfl⟩

/-- On an empty cache, a failing status among the calls `GetDeviceCount` issued is thrown and
the platform is unchanged. -/
theorem GetDeviceCount_failure (w : Native) (p : CLWPlatform) (hempty : p.devices_ = [])
    (ev : NativeEvent) (hfail : ev.status ≠ CL_SUCCESS)
    (hev : ev ∈ (CLWPlatform.GetDeviceCount w p).native.trace.drop w.trace.length) :
    (CLWPlatform.GetDeviceCount w p).outcome = .thrown ⟨ev.status, "clGetDeviceIDs failed"⟩ ∧
      (CLWPlatform.GetDeviceCount w p).state = p := by
  by_cases h0 : (w.state w.clock).status (.deviceCount p.id p.type_) = CL_SUCCESS
  · by_cases h1 : (w.state (w.clock + 1)).status
        (.deviceFetch p.id p.type_ ((w.state w.clock).devices p.id p.type_).length) = CL_SUCCESS
    · rw [GetDeviceCount_success w p hempty h0 h1] at hev
      simp only [List.drop_left, List.mem_cons, List.mem_singleton, List.not_mem_nil,
        or_false] at hev
      rcases hev with rfl | rfl <;> exact absurd rfl hfail
    · rw [GetDeviceCount_fetch_fails w p hempty h0 h1] at hev ⊢
      simp only [List.drop_left, List.mem_cons, List.mem_singleton, List.not_mem_nil,
        or_false] at hev
      rcases hev with rfl | rfl
      · exact absurd rfl hfail
      · exact ⟨rfl, rfl⟩
  · rw [GetDeviceCount_count_fails w p hempty h0] at hev ⊢
    simp only [List.drop_left, List.mem_singleton] at hev
    subst hev
    exact ⟨rfl, rfl⟩

theorem GetDevice_failure (w : Native) (p : CLWPlatform) (idx : Nat) (hempty : p.devices_ = [])
    (ev : NativeEvent) (hfail : ev.status ≠ CL_SUCCESS)
    (hev : ev ∈ (CLWPlatform.GetDevice w p idx).native.trace.drop w.trace.length) :
    (CLWPlatform.GetDevice w p idx).outcome = .thrown ⟨ev.status, "clGetDeviceIDs failed"⟩ ∧
      (CLWPlatform.GetDevice w p idx).state = p := by
  by_cases h0 : (w.state w.clock).status (.deviceCount p.id p.type_) = CL_SUCCESS
  · by_cases h1 : (w.state (w.clock + 1)).status
        (.deviceFetch p.id p.type_ ((w.state w.clock).devices p.id p.type_).length) = CL_SUCCESS
    · rw [GetDevice_success w p idx hempty h0 h1] at hev
      simp only [List.drop_left, List.mem_cons, List.mem_singleton, List.not_mem_nil,
        or_false] at hev
      rcases hev with rfl | rfl <;> exact absurd rfl hfail
    · rw [GetDevice_fetch_fails w p idx hempty h0 h1] at hev ⊢
      simp only [List.drop_left, List.mem_cons, List.mem_singleton, List.not_mem_nil,
        or_false] at hev
      rcases hev with rfl | rfl
      · exact absurd rfl hfail
      · exact ⟨rfl, rfl⟩
  · rw [GetDevice_count_fails w p idx hempty h0] at hev ⊢
    simp only [List.drop_left, List.mem_singleton] at hev
    subst hev
    exact ⟨rfl, rfl⟩

/-- On an empty cache, when both queries succeed on the native list `ds`, the accessors return
the native result and the cache is the native list in order. -/
theorem accessors_success (w : Native) (p : CLWPlatform) (ds : List cl_device_id)
    (hempty : p.devices_ = [])
    (hcount : (w.state w.clock).status (.deviceCount p.id p.type_) = CL_SUCCESS)
    (hfetch : (w.state (w.clock + 1)).status (.deviceFetch p.id p.type_ ds.length) = CL_SUCCESS)
    (hds0 : (w.state w.clock).devices p.id p.type_ = ds)
    (hds1 : (w.state (w.clock + 1)).devices p.id p.type_ = ds) :
    CLWPlatform.GetDeviceCount w p
        = ⟨.returned ds.length,
            ⟨w.clock + 2, w.trace ++ [⟨.deviceCount p.id p.type_, CL_SUCCESS⟩,
              ⟨.deviceFetch p.id p.type_ ds.length, CL_SUCCESS⟩], w.state⟩,
            { p with devices_ := ds.map CLWDevice.mk }⟩ ∧
      ∀ idx, CLWPlatform.GetDevice w p idx
        = ⟨CLWPlatform.deviceAt { p with devices_ := ds.map CLWDevice.mk } idx,
            ⟨w.clock + 2, w.trace ++ [⟨.deviceCount p.id p.type_, CL_SUCCESS⟩,
              ⟨.deviceFetch p.id p.type_ ds.length, CL_SUCCESS⟩], w.state⟩,
            { p with devices_ := ds.map CLWDevice.mk }⟩ := by
  have hf : (w.state (w.clock + 1)).status
      (.deviceFetch p.id p.type_ ((w.state w.clock).devices p.id p.type_).length)
        = CL_SUCCESS := by rw [hds0]; exact hfetch
  refine ⟨?_, fun idx => ?_⟩
  · rw [GetDeviceCount_success w p hempty hcount hf, hds0, hds1, fetchedIds_self]
  · rw [GetDevice_success w p idx hempty hcount hf, hds0, hds1, fetchedIds_self]

theorem deviceAt_map (p : CLWPlatform) (ds : List cl_device_id) (idx : Nat)
    (hp : p.devices_ = ds.map CLWDevice.mk) (h : idx < ds.length) :
    p.deviceAt idx = .returned ⟨ds.get ⟨idx, h⟩⟩ := by
  simp [CLWPlatform.deviceAt, hp, List.getElem?_eq_getElem h]

/-- C7: on a platform with an empty cache, a non-success status of a native call issued by
`GetDeviceCount` or by `GetDevice` is the status of the error the accessor throws, and the
platform, its cache included, is unchanged.  A later accessor call on that platform, in
whatever runtime `w2` it runs, starts with the native count query again, and when both queries
then succeed on the native list `ds` it returns the native result: the count `ds.length`, the
device of handle `ds[idx]`, the cache being `ds` in order. -/
theorem C7_failed_query_leaves_cache_empty (w : Native) (p : CLWPlatform) (idx : Nat)
    (ev : NativeEvent) (hempty : p.devices_ = []) (hfail : ev.status ≠ CL_SUCCESS) :
    (ev ∈ (CLWPlatform.GetDeviceCount w p).native.trace.drop w.trace.length →
        (CLWPlatform.GetDeviceCount w p).outcome
            = .thrown ⟨ev.status, "clGetDeviceIDs failed"⟩ ∧
          (CLWPlatform.GetDeviceCount w p).state = p) ∧
      (ev ∈ (CLWPlatform.GetDevice w p idx).native.trace.drop w.trace.length →
        (CLWPlatform.GetDevice w p idx).outcome
            = .thrown ⟨ev.status, "clGetDeviceIDs failed"⟩ ∧
          (CLWPlatform.GetDevice w p idx).state = p) ∧
      ∀ (w2 : Native) (ds : List cl_device_id),
        (∃ st rest, (CLWPlatform.GetDeviceCount w2 p).native.trace
          = w2.trace ++ ⟨.deviceCount p.id p.type_, st⟩ :: rest) ∧
        (∃ st rest, (CLWPlatform.GetDevice w2 p idx).native.trace
          = w2.trace ++ ⟨.deviceCount p.id p.type_, st⟩ :: rest) ∧
        ((w2.state w2.clock).status (.deviceCount p.id p.type_) = CL_SUCCESS →
          (w2.state (w2.clock + 1)).status (.deviceFetch p.id p.type_ ds.length) = CL_SUCCESS →
          (w2.state w2.clock).devices p.id p.type_ = ds →
          (w2.state (w2.clock + 1)).devices p.id p.type_ = ds →
            (CLWPlatform.GetDeviceCount w2 p).outcome = .returned ds.length ∧
            (CLWPlatform.GetDeviceCount w2 p).state.devices_ = ds.map CLWDevice.mk ∧
            (CLWPlatform.GetDevice w2 p idx).state.devices_ = ds.map CLWDevice.mk ∧
            ∀ h : idx < ds.length,
              (CLWPlatform.GetDevice w2 p idx).outcome = .returned ⟨ds.get ⟨idx, h⟩⟩) := by
  refine ⟨GetDeviceCount_failure w p hempty ev hfail,
    GetDevice_failure w p idx hempty ev hfail, ?_⟩
  intro w2 ds
  refine ⟨GetDeviceCount_queries w2 p hempty, GetDevice_queries w2 p idx hempty, ?_⟩
  intro hcount hfetch hds0 hds1
  obtain ⟨hc, hd⟩ := accessors_success w2 p ds hempty hcount hfetch hds0 hds1
  rw [hc, hd idx]
  exact ⟨rfl, rfl, rfl, fun h => deviceAt_map _ ds idx rfl h⟩

/-- C7 on a runtime whose first device count query fails with -5 and whose later queries
succeed: the first `GetDeviceCount` throws -5 and leaves the platform as it was, the next one
returns 1. -/
theorem C7_failed_query_leaves_cache_empty_witness :
    (platformOf plainState 1 CL_DEVICE_TYPE_ALL).devices_ = [] ∧
      (CLWPlatform.GetDeviceCount countFailsOnce
          (platformOf plainState 1 CL_DEVICE_TYPE_ALL)).outcome
        = .thrown ⟨-5, "clGetDeviceIDs failed"⟩ ∧
      (CLWPlatform.GetDeviceCount countFailsOnce
          (platformOf plainState 1 CL_DEVICE_TYPE_ALL)).state
        = platformOf plainState 1 CL_DEVICE_TYPE_ALL ∧
      (CLWPlatform.GetDeviceCount
          (CLWPlatform.GetDeviceCount countFailsOnce
            (platformOf plainState 1 CL_DEVICE_TYPE_ALL)).native
          (platformOf plainState 1 CL_DEVICE_TYPE_ALL)).outcome = .returned 1 :=
  have h := C7_failed_query_leaves_cache_empty countFailsOnce
    (platformOf plainState 1 CL_DEVICE_TYPE_ALL) 0
    ⟨.deviceCount 1 CL_DEVICE_TYPE_ALL, -5⟩ rfl (by decide)
  have h1 := h.1 (by decide)
  have h2 := (h.2.2 (CLWPlatform.GetDeviceCount countFailsOnce
    (platformOf plainState 1 CL_DEVICE_TYPE_ALL)).native [7]).2.2
      (by decide) (by decide) (by decide) (by decide)
  ⟨rfl, h1.1, h1.2, h2.1⟩

/-- C8 (as amended): in a steady runtime whose device queries succeed, for a platform whose
cache is empty or holds the native device list, `GetDeviceCount` returns the length of the
native list, and for every index at or beyond it `GetDevice` throws nothing and returns nothing:
the unchecked access `devices_[idx]` is past the end of the cache, which is undefined
behaviour.  This holds for `GetDevice` called first and for `GetDevice` called after
`GetDeviceCount`. -/
theorem C8_index_past_count_is_unchecked (w : Native) (s : NativeState) (p : CLWPlatform)
    (idx : Nat) (hsteady : ∀ t, w.state t = s)
    (hcount : s.status (.deviceCount p.id p.type_) = CL_SUCCESS)
    (hfetch : ∀ n, s.status (.deviceFetch p.id p.type_ n) = CL_SUCCESS)
    (hcache : p.devices_ = [] ∨ p.devices_ = (s.devices p.id p.type_).map CLWDevice.mk)
    (hidx : (s.devices p.id p.type_).length ≤ idx) :
    (CLWPlatform.GetDeviceCount w p).outcome = .returned (s.devices p.id p.type_).length ∧
      (CLWPlatform.GetDevice w p idx).outcome = .undefined ∧
      (CLWPlatform.GetDevice (CLWPlatform.GetDeviceCount w p).native
        (CLWPlatform.GetDeviceCount w p).state idx).outcome = .undefined := by
  have hfresh : ∀ (w' : Native) (q : CLWPlatform), w'.state = w.state → q.id = p.id →
      q.type_ = p.type_ → q.devices_ = [] →
      CLWPlatform.GetDeviceCount w' q
          = ⟨.returned (s.devices p.id p.type_).length,
              ⟨w'.clock + 2, w'.trace ++ [⟨.deviceCount q.id q.type_, CL_SUCCESS⟩,
                ⟨.deviceFetch q.id q.type_ (s.devices p.id p.type_).length, CL_SUCCESS⟩],
                w'.state⟩,
              { q with devices_ := (s.devices p.id p.type_).map CLWDevice.mk }⟩ ∧
        (CLWPlatform.GetDevice w' q idx).outcome = .undefined := by
    intro w' q hw hid hty hq
    have hs : ∀ t, w'.state t = s := fun t => by rw [hw]; exact hsteady t
    obtain ⟨hc, hd⟩ := accessors_success w' q (s.devices p.id p.type_) hq
      (by rw [hs, hid, hty]; exact hcount) (by rw [hs, hid, hty]; exact hfetch _)
      (by rw [hs, hid, hty]) (by rw [hs, hid, hty])
    refine ⟨hc, ?_⟩
    rw [hd idx]
    exact deviceAt_of_le _ idx (by simpa using hidx)
  by_cases hp : p.devices_ = []
  · obtain ⟨hc, hd⟩ := hfresh w p rfl rfl rfl hp
    have hn : (CLWPlatform.GetDeviceCount w p).native
        = ⟨w.clock + 2, w.trace ++ [⟨.deviceCount p.id p.type_, CL_SUCCESS⟩,
            ⟨.deviceFetch p.id p.type_ (s.devices p.id p.type_).length, CL_SUCCESS⟩],
            w.state⟩ := by rw [hc]
    have hst : (CLWPlatform.GetDeviceCount w p).state
        = { p with devices_ := (s.devices p.id p.type_).map CLWDevice.mk } := by rw [hc]
    refine ⟨by rw [hc], hd, ?_⟩
    rw [hn, hst]
    by_cases hds : s.devices p.id p.type_ = []
    · have hq : ({ p with devices_ := (s.devices p.id p.type_).map CLWDevice.mk } :
          CLWPlatform).devices_ = [] := by
        show List.map CLWDevice.mk (s.devices p.id p.type_) = []
        rw [hds]; rfl
      have hw : (⟨w.clock + 2, w.trace ++ [⟨.deviceCount p.id p.type_, CL_SUCCESS⟩,
        ⟨.deviceFetch p.id p.type_ (s.devices p.id p.type_).length, CL_SUCCESS⟩], w.state⟩ :
          Native).state = w.state := rfl
      have hi : ({ p with devices_ := (s.devices p.id p.type_).map CLWDevice.mk } :
          CLWPlatform).id = p.id := rfl
      have ht : ({ p with devices_ := (s.devices p.id p.type_).map CLWDevice.mk } :
          CLWPlatform).type_ = p.type_ := rfl
      have h := hfresh _ _ hw hi ht hq
      exact h.2
    · have hq : ({ p with devices_ := (s.devices p.id p.type_).map CLWDevice.mk } :
          CLWPlatform).devices_ ≠ [] := by
        show List.map CLWDevice.mk (s.devices p.id p.type_) ≠ []
        simpa using hds
      rw [GetDevice_cached _ _ idx hq]
      exact deviceAt_of_le _ idx (by simpa using hidx)
  · have hq : p.devices_ = (s.devices p.id p.type_).map CLWDevice.mk :=
      hcache.resolve_left hp
    have hlen : p.devices_.length = (s.devices p.id p.type_).length := by
      rw [hq, List.length_map]
    rw [GetDeviceCount_cached w p hp, GetDevice_cached w p idx hp]
    exact ⟨by rw [hlen], deviceAt_of_le p idx (by rw [hlen]; exact hidx),
      deviceAt_of_le p idx (by rw [hlen]; exact hidx)⟩

/-- C8 (as amended) on the platform with no device, index 0, and on the platform with one
device, index 1. -/
theorem C8_index_past_count_is_unchecked_witness :
    ((CLWPlatform.GetDeviceCount (steady emptyState)
          (platformOf emptyState 1 CL_DEVICE_TYPE_ALL)).outcome = .returned 0 ∧
        (CLWPlatform.GetDevice (steady emptyState)
          (platformOf emptyState 1 CL_DEVICE_TYPE_ALL) 0).outcome = .undefined) ∧
      ((CLWPlatform.GetDeviceCount (steady plainState)
          (platformOf plainState 1 CL_DEVICE_TYPE_ALL)).outcome = .returned 1 ∧
        (CLWPlatform.GetDevice (steady plainState)
          (platformOf plainState 1 CL_DEVICE_TYPE_ALL) 1).outcome = .undefined) :=
  have h0 := C8_index_past_count_is_unchecked (steady emptyState) emptyState
    (platformOf emptyState 1 CL_DEVICE_TYPE_ALL) 0 (fun _ => rfl) rfl (fun _ => rfl)
    (Or.inl rfl) (by decide)
  have h1 := C8_index_past_count_is_unchecked (steady plainState) plainState
    (platformOf plainState 1 CL_DEVICE_TYPE_ALL) 1 (fun _ => rfl) rfl (fun _ => rfl)
    (Or.inl rfl) (by decide)
  ⟨⟨h0.1, h0.2.1⟩, ⟨h1.1, h1.2.1⟩⟩

/-- C8 as stated fails on the platform with no device: `GetDeviceCount` returns 0, and
`GetDevice 0`, called after it with every native call succeeding, throws no error. -/
theorem C8_get_device_raises_nothing :
    (CLWPlatform.GetDeviceCount (steady emptyState)
        (platformOf emptyState 1 CL_DEVICE_TYPE_ALL)).outcome = .returned 0 ∧
      (CLWPlatform.GetDevice
        (CLWPlatform.GetDeviceCount (steady emptyState)
          (platformOf emptyState 1 CL_DEVICE_TYPE_ALL)).native
        (CLWPlatform.GetDeviceCount (steady emptyState)
          (platformOf emptyState 1 CL_DEVICE_TYPE_ALL)).state 0).outcome = .undefined ∧
      ¬ ∃ e, (CLWPlatform.GetDevice
        (CLWPlatform.GetDeviceCount (steady emptyState)
          (platformOf emptyState 1 CL_DEVICE_TYPE_ALL)).native
        (CLWPlatform.GetDeviceCount (steady emptyState)
          (platformOf emptyState 1 CL_DEVICE_TYPE_ALL)).state 0).outcome = .thrown e :=
  ⟨by decide, by decide, by
    have h : (CLWPlatform.GetDevice
        (CLWPlatform.GetDeviceCount (steady emptyState)
          (platformOf emptyState 1 CL_DEVICE_TYPE_ALL)).native
        (CLWPlatform.GetDeviceCount (steady emptyState)
          (platformOf emptyState 1 CL_DEVICE_TYPE_ALL)).state 0).outcome = .undefined := by
      decide
    rw [h]
    rintro ⟨e, he⟩
    cases he⟩

/-- C9: let the native device query of a platform succeed with the non-empty handle list `ds`,
the platform's cache being empty or holding `ds`.  Then `GetDeviceCount` returns `ds.length`,
`GetDevice idx` returns the device of handle `ds[idx]` for every `idx` below it, and the cache
after either accessor is `ds` in the native order.  On a platform whose cache is `ds`, every
accessor call in every runtime issues no native call, leaves the platform unchanged and gives
the same answer; in particular `GetDevice` repeated with the same index returns the same
device.  A platform just returned by `Create` has an empty cache. -/
theorem C9_devices_in_native_order (w : Native) (p : CLWPlatform) (ds : List cl_device_id)
    (hne : ds ≠ [])
    (hcache : p.devices_ = [] ∨ p.devices_ = ds.map CLWDevice.mk)
    (hcount : (w.state w.clock).status (.deviceCount p.id p.type_) = CL_SUCCESS)
    (hfetch : (w.state (w.clock + 1)).status (.deviceFetch p.id p.type_ ds.length) = CL_SUCCESS)
    (hds0 : (w.state w.clock).devices p.id p.type_ = ds)
    (hds1 : (w.state (w.clock + 1)).devices p.id p.type_ = ds) :
    (CLWPlatform.GetDeviceCount w p).outcome = .returned ds.length ∧
      (CLWPlatform.GetDeviceCount w p).state.devices_ = ds.map CLWDevice.mk ∧
      (∀ idx, (CLWPlatform.GetDevice w p idx).state.devices_ = ds.map CLWDevice.mk) ∧
      (∀ idx (h : idx < ds.length),
        (CLWPlatform.GetDevice w p idx).outcome = .returned ⟨ds.get ⟨idx, h⟩⟩) ∧
      (∀ (q : CLWPlatform), q.devices_ = ds.map CLWDevice.mk → ∀ (w' : Native) (idx : Nat),
        CLWPlatform.GetDeviceCount w' q = ⟨.returned ds.length, w', q⟩ ∧
        CLWPlatform.GetDevice w' q idx = ⟨q.deviceAt idx, w', q⟩ ∧
        ∀ h : idx < ds.length, q.deviceAt idx = .returned ⟨ds.get ⟨idx, h⟩⟩) ∧
      (∀ (w' : Native) (idx : Nat), idx < ds.length →
        (CLWPlatform.GetDevice w' (CLWPlatform.GetDevice w p idx).state idx).outcome
          = (CLWPlatform.GetDevice w p idx).outcome) ∧
      (∀ (w0 : Native) (id : cl_platform_id) (type : cl_device_type) (q : CLWPlatform),
        (CLWPlatform.Create w0 id type).outcome = .returned q → q.devices_ = []) := by
  have hmne : ds.map CLWDevice.mk ≠ [] := by simpa using hne
  have hcached : ∀ (q : CLWPlatform), q.devices_ = ds.map CLWDevice.mk →
      ∀ (w' : Native) (idx : Nat),
        CLWPlatform.GetDeviceCount w' q = ⟨.returned ds.length, w', q⟩ ∧
        CLWPlatform.GetDevice w' q idx = ⟨q.deviceAt idx, w', q⟩ ∧
        ∀ h : idx < ds.length, q.deviceAt idx = .returned ⟨ds.get ⟨idx, h⟩⟩ := by
    intro q hq w' idx
    have hq' : q.devices_ ≠ [] := by rw [hq]; exact hmne
    refine ⟨?_, GetDevice_cached w' q idx hq', fun h => deviceAt_map q ds idx hq h⟩
    rw [GetDeviceCount_cached w' q hq', hq, List.length_map]
  have hstate : ∀ idx, (CLWPlatform.GetDevice w p idx).state.devices_ = ds.map CLWDevice.mk ∧
      ∀ h : idx < ds.length,
        (CLWPlatform.GetDevice w p idx).outcome = .returned ⟨ds.get ⟨idx, h⟩⟩ := by
    intro idx
    by_cases hp : p.devices_ = []
    · rw [(accessors_success w p ds hp hcount hfetch hds0 hds1).2 idx]
      exact ⟨rfl, fun h => deviceAt_map _ ds idx rfl h⟩
    · have hq := hcache.resolve_left hp
      rw [((hcached p hq w idx).2).1]
      exact ⟨hq, fun h => deviceAt_map p ds idx hq h⟩
  refine ⟨?_, ?_, fun idx => (hstate idx).1, fun idx h => (hstate idx).2 h, hcached, ?_,
    fun w0 id type q h => construct_devices w0 id type q h⟩
  · by_cases hp : p.devices_ = []
    · rw [(accessors_success w p ds hp hcount hfetch hds0 hds1).1]
    · rw [(hcached p (hcache.resolve_left hp) w 0).1]
  · by_cases hp : p.devices_ = []
    · rw [(accessors_success w p ds hp hcount hfetch hds0 hds1).1]
    · rw [(hcached p (hcache.resolve_left hp) w 0).1]
      exact hcache.resolve_left hp
  · intro w' idx h
    obtain ⟨h1, h2⟩ := hstate idx
    rw [((hcached _ h1 w' idx).2).1, h2 h]
    exact deviceAt_map _ ds idx h1 h

/-- C9 on a platform with the native device list `[7, 9]`. -/
theorem C9_devices_in_native_order_witness :
    (CLWPlatform.GetDeviceCount (steady twoDeviceState)
        (platformOf twoDeviceState 1 CL_DEVICE_TYPE_ALL)).outcome = .returned 2 ∧
      (CLWPlatform.GetDeviceCount (steady twoDeviceState)
        (platformOf twoDeviceState 1 CL_DEVICE_TYPE_ALL)).state.devices_ = [⟨7⟩, ⟨9⟩] ∧
      (CLWPlatform.GetDevice (steady twoDeviceState)
        (platformOf twoDeviceState 1 CL_DEVICE_TYPE_ALL) 0).outcome = .returned ⟨7⟩ ∧
      (CLWPlatform.GetDevice (steady twoDeviceState)
        (platformOf twoDeviceState 1 CL_DEVICE_TYPE_ALL) 1).outcome = .returned ⟨9⟩ :=
  have h := C9_devices_in_native_order (steady twoDeviceState)
    (platformOf twoDeviceState 1 CL_DEVICE_TYPE_ALL) [7, 9] (by decide) (Or.inl rfl)
    rfl rfl rfl rfl
  ⟨h.1, h.2.1, h.2.2.2.1 0 (by decide), h.2.2.2.1 1 (by decide)⟩
